import Mathlib

/-! # RIPACrypt command-line client: a shallow embedding

The client is glue over four collaborators: `encoding/json`, `encoding/base64`,
`net/http` and `golang.org/x/crypto/openpgp`.  The embedding keeps the control
flow of every function of the repository and takes the collaborators as the
fields of one record, `Env`.  A run of the program threads a `World`, which
records the effects the theorems talk about: the HTTP requests handed to
`client.Do`, the key pairs generated and the files written.

Conventions.
* A Go `string` and a Go `[]byte` are both byte sequences; both are represented
  by `String`, one character standing for one byte, so the conversions
  `string(b)` and `[]byte(s)` are the identity.
* A Go result `(T, error)` is a pair `T × Option GoError`; `none` is `nil`.
* `uint64`, `int` and `int64` values are only stored, copied and compared
  with zero, never computed with: they are `Nat` and `Int`.
* `fmt.Println` output is not part of the model.
-/

namespace RIPACrypt

/-! ## Constants (rcrypt.go) -/

/-- The base URL for all queries. -/
def RIPACRYPTURL : String := "https://ripacrypt.download/1/"

/-- The value of the client-version header. -/
def CLIENTVERSION : String := "1.0.0"

/-- The SOCKS5 host used when a user wants to use Tor. -/
def TORSOCKS : String := "localhost:9050"

/-- The letters `RandStringRunes` draws from. -/
def letterRunes : List Char := "abcdefghijklmnopqrstuvwxyzABCDEFGHIJKLMNOPQRSTUVWXYZ".data

/-! ## Errors -/

/-- A Go `error` value.  The repository never builds an error of its own: every
error it returns was handed to it by a library call, unchanged.  The
constructor records which call that was, the payload is the message. -/
inductive GoError where
  /-- From `json.Marshal` or `json.Unmarshal`. -/
  | json (msg : String)
  /-- From `http.NewRequest`. -/
  | request (msg : String)
  /-- From `client.Do`: the transport failed. -/
  | transport (msg : String)
  /-- From `openpgp.ReadArmoredKeyRing`. -/
  | keyring (msg : String)
  /-- From `base64.StdEncoding.DecodeString`. -/
  | base64 (msg : String)
  /-- From `openpgp.ReadMessage`. -/
  | message (msg : String)
  /-- From `ioutil.ReadAll` on the body of an opened message. -/
  | read (msg : String)
  /-- From `openpgp.Encrypt` and from the writer it returns. -/
  | encrypt (msg : String)
  deriving DecidableEq, Repr

/-! ## Data model -/

/-- A user's configuration file (`CoreConf`, rcrypt.go). -/
structure CoreConf where
  /-- JSON field `usetor`. -/
  UseTor : Bool := false
  /-- JSON field `userid`. -/
  UserID : Nat := 0
  /-- JSON field `btcaddr`. -/
  BTCAddr : String := ""
  /-- JSON field `public_key`. -/
  PublicKey : String := ""
  /-- JSON field `private_key`. -/
  PrivateKey : String := ""
  /-- JSON field `fingerprint`. -/
  Fingerprint : String := ""
  deriving DecidableEq, Repr

/-- The request body of `challenge/` (rCryptChallenge.go). -/
structure ClientChallengeRequest where
  /-- JSON field `user_id`. -/
  UserID : Nat := 0
  /-- JSON field `fingerprint`. -/
  Fingerprint : String := ""
  deriving DecidableEq, Repr

/-- The response of `challenge/` (rCryptChallenge.go). -/
structure ChallengeAPIResponse where
  /-- JSON field `challenge`. -/
  Challenge : String := ""
  /-- JSON field `challenge_id`. -/
  ChallengeID : Nat := 0
  /-- JSON field `user_id`. -/
  UserID : Nat := 0
  /-- JSON field `status_code`. -/
  StatusCode : Int := 0
  /-- JSON field `success`. -/
  Success : Bool := false
  /-- JSON field `status_message`. -/
  Message : String := ""
  /-- JSON field `version`. -/
  Version : Int := 0
  deriving DecidableEq, Repr

/-- The request body of a check-in (rCryptCheckin.go). -/
structure ClientCheckinRequest where
  /-- JSON field `user_id`. -/
  UserID : Nat := 0
  /-- JSON field `challenge`. -/
  Challenge : String := ""
  /-- JSON field `challenge_id`. -/
  ChallengeID : Nat := 0
  deriving DecidableEq, Repr

/-- A crypt as embedded in `NewCryptAPIResponse` (rCryptNewCrypt.go). -/
structure Crypt where
  /-- Not part of the JSON layout (tag `-`). -/
  UserID : Nat := 0
  /-- JSON field `crypt_id`. -/
  CryptID : String := ""
  /-- JSON field `ciphertext`. -/
  CipherText : String := ""
  /-- JSON field `crypt_timestamp`. -/
  CreateTimeStamp : Int := 0
  /-- JSON field `crypt_description`. -/
  Description : String := ""
  /-- JSON field `is_crypt_destroyed`. -/
  IsDestroyed : Bool := false
  /-- JSON field `last_checkin`. -/
  LastCheckIn : Int := 0
  /-- JSON field `check_in_duration`. -/
  CheckInDuration : Int := 0
  /-- JSON field `miss_count`. -/
  MissCount : Int := 0
  deriving DecidableEq, Repr

/-- The response of `crypt/new/`, of `crypt/{id}/` (rCryptNewCrypt.go). -/
structure NewCryptAPIResponse where
  /-- JSON field `status_code`. -/
  StatusCode : Int := 0
  /-- JSON field `success`. -/
  Success : Bool := false
  /-- JSON field `status_message`. -/
  Message : String := ""
  /-- JSON field `version`. -/
  Version : Int := 0
  /-- JSON field `crypt`. -/
  CryptPayload : Crypt := {}
  deriving DecidableEq, Repr

/-- The request body of `crypt/new/` (rCryptNewCrypt.go). -/
structure ClientCryptRequest where
  /-- JSON field `user_id`. -/
  UserID : Nat := 0
  /-- JSON field `crypt_content`. -/
  CryptContent : String := ""
  /-- JSON field `challenge`. -/
  Challenge : String := ""
  /-- JSON field `challenge_id`. -/
  ChallengeID : Nat := 0
  /-- JSON field `description`. -/
  Description : String := ""
  /-- JSON field `checkin_duration`. -/
  CheckInDuration : Int := 0
  /-- JSON field `miss_count`. -/
  MissCount : Int := 0
  deriving DecidableEq, Repr

/-- The request body of `newbtc/` (rCryptNewBTC.go). -/
structure ClientBTCRequest where
  /-- JSON field `user_id`. -/
  UserID : Nat := 0
  /-- JSON field `challenge`. -/
  Challenge : String := ""
  /-- JSON field `challenge_id`. -/
  ChallengeID : Nat := 0
  deriving DecidableEq, Repr

/-- The request body of `register/` (rCryptRegister.go). -/
structure ClientRegisterRequest where
  /-- JSON field `public_key`. -/
  PublicKey : String := ""
  deriving DecidableEq, Repr

/-- The response of `register/` and of `newbtc/` (rCryptRegister.go). -/
structure APIRegisterResponse where
  /-- JSON field `status_code`. -/
  StatusCode : Int := 0
  /-- JSON field `success`. -/
  Success : Bool := false
  /-- JSON field `status_message`. -/
  Message : String := ""
  /-- JSON field `version`. -/
  Version : Int := 0
  /-- JSON field `btc_addr`. -/
  BTCAddr : String := ""
  /-- JSON field `user_id`. -/
  UserID : Nat := 0
  deriving DecidableEq, Repr

/-! ## The HTTP boundary -/

/-- What the program hands to `client.Do`: the arguments of `http.NewRequest`,
the two headers set on the request, and whether the client was built with the
SOCKS proxy transport (`TORSOCKS`). -/
structure Request where
  method : String
  url : String
  /-- The body reader passed to `http.NewRequest`; `none` is a `nil` body. -/
  body : Option String
  /-- The `Header.Set` calls, in order. -/
  headers : List (String × String)
  viaTor : Bool
  deriving DecidableEq, Repr

/-- The two headers every call sets. -/
def stdHeaders : List (String × String) :=
  [("X-CLIENT-VER", CLIENTVERSION), ("Content-Type", "application/json")]

/-! ## The collaborators -/

/-- The libraries and the surroundings of one run of the program.  Every field
is a function of the Go standard library or of `golang.org/x/crypto/openpgp`
that the repository calls; none of them is code of the repository.  A field
that draws on a random source (`encrypt`, `newEntity`, `intn`) stands for the
outcome of that source in this run. -/
structure Env where
  /-- The type `*openpgp.Entity`. -/
  Entity : Type
  /-- The type of `md.UnverifiedBody`, an `io.Reader`. -/
  Body : Type
  /-- The type of the `io.WriteCloser` returned by `openpgp.Encrypt`, together
  with the buffer it writes to. -/
  Writer : Type
  /-- The call `openpgp.ReadArmoredKeyRing(bytes.NewBufferString(s))`. -/
  readArmoredKeyRing : String → List Entity × Option String
  /-- The call `openpgp.ReadMessage(bytes.NewBuffer(dec), entityList, nil, nil)`. -/
  readMessage : String → List Entity → Except String Body
  /-- The call `ioutil.ReadAll(md.UnverifiedBody)`. -/
  readAll : Body → String × Option String
  /-- The call `openpgp.Encrypt(buf, entityList, nil, nil, &packetConf)` on a
  fresh buffer, with `DefaultHash: crypto.SHA256`. -/
  encrypt : List Entity → Except String Writer
  /-- The call `w.Write([]byte(clearText))`. -/
  write : Writer → String → Except String Writer
  /-- The call `w.Close()`; on success, the bytes then held by the buffer. -/
  close : Writer → Except String String
  /-- The call `e.PrimaryKey.KeyIdString()`. -/
  keyIdString : Entity → String
  /-- The call `openpgp.NewEntity(name, comment, email, &packetConf)`. -/
  newEntity : String → String → String → Except String Entity
  /-- The keys of the map `e.Identities`, in the order `range` visits them. -/
  identities : Entity → List String
  /-- The call `id.SelfSignature.SignUserId(id.UserId.Id, e.PrimaryKey,
  e.PrivateKey, nil)` for the identity of that name. -/
  signUserId : Entity → String → Except String Entity
  /-- The assignment `id.SelfSignature.PreferredHash = []uint8{8}`. -/
  setPreferredHash : Entity → String → List Nat → Entity
  /-- The call `armor.Encode(buf, blockType, nil)`: the error it returns. -/
  armorEncode : String → Option String
  /-- The calls `e.SerializePrivate(w2, nil); w2.Close()`: the contents of the
  buffer afterwards and the entity as the call leaves it. -/
  serializePrivate : Entity → String × Entity
  /-- The calls `e.Serialize(w1); w1.Close()`: the contents of the buffer. -/
  serialize : Entity → String
  /-- The call `base64.StdEncoding.EncodeToString`. -/
  encodeToString : String → String
  /-- The call `base64.StdEncoding.DecodeString`. -/
  decodeString : String → String × Option String
  /-- The call `json.Marshal` on a `ClientChallengeRequest`. -/
  marshalChallengeRequest : ClientChallengeRequest → Except String String
  /-- The call `json.Marshal` on a `ClientCheckinRequest`. -/
  marshalCheckinRequest : ClientCheckinRequest → Except String String
  /-- The call `json.Marshal` on a `ClientCryptRequest`. -/
  marshalCryptRequest : ClientCryptRequest → Except String String
  /-- The call `json.Marshal` on a `ClientBTCRequest`. -/
  marshalBTCRequest : ClientBTCRequest → Except String String
  /-- The call `json.Marshal` on a `ClientRegisterRequest`. -/
  marshalRegisterRequest : ClientRegisterRequest → Except String String
  /-- The call `json.Marshal` on a `CoreConf`. -/
  marshalConf : CoreConf → Except String String
  /-- The call `json.Unmarshal(body, &apiResponse)` on a zero
  `ChallengeAPIResponse`. -/
  unmarshalChallengeResponse : String → Except String ChallengeAPIResponse
  /-- The call `json.Unmarshal(body, &apiResponse)` on a zero
  `NewCryptAPIResponse`. -/
  unmarshalCryptResponse : String → Except String NewCryptAPIResponse
  /-- The call `json.Unmarshal(body, &apiResponse)` on a zero
  `APIRegisterResponse`. -/
  unmarshalRegisterResponse : String → Except String APIRegisterResponse
  /-- The call `json.Unmarshal(b, &conf)` on a zero `CoreConf`. -/
  unmarshalConf : String → Except String CoreConf
  /-- The error of `http.NewRequest(method, url, body)`, if any. -/
  newRequest : String → String → Option String
  /-- The call `client.Do(req)` followed by `ioutil.ReadAll(resp.Body)`, whose
  error the program discards: a transport error, or the bytes read.  The first
  argument is the list of requests made before, so the answer of the server
  may depend on them. -/
  clientDo : List Request → Request → Except String String
  /-- The hidden-service base URL `HSURL`.  `GetBTC` uses it; its declaration is
  not in the files of the repository. -/
  HSURL : String
  /-- The call `rand.Intn(n)`, the first argument counting the earlier calls. -/
  intn : Nat → Nat → Nat
  /-- The call `os.Getenv("HOME")`. -/
  home : String
  /-- The call `ioutil.ReadFile(path)`. -/
  readFile : String → String × Option String
  /-- The error of `os.Mkdir(path, 0700)`, if any. -/
  mkdir : String → Option String
  /-- Whether standard input is not a character device. -/
  stdinIsPiped : Bool
  /-- The call `ioutil.ReadAll(os.Stdin)`, its error discarded. -/
  stdin : String

/-- The effects of a run so far. -/
structure World where
  /-- The requests handed to `client.Do`, oldest first. -/
  sent : List Request := []
  /-- The arguments of the calls of `openpgp.NewEntity`, oldest first. -/
  generated : List (String × String × String) := []
  /-- The number of calls of `rand.Intn`. -/
  rngPos : Nat := 0
  /-- The arguments of the calls of `os.Mkdir`, oldest first. -/
  mkdirs : List String := []
  /-- The arguments of the calls of `ioutil.WriteFile`, oldest first. -/
  writes : List (String × String) := []
  deriving DecidableEq, Repr

/-- The effects once `req` has been handed to `client.Do`. -/
def World.send (w : World) (req : Request) : World :=
  { w with sent := w.sent ++ [req] }

/-- The statements every API call ends with, as a function of what `client.Do`
gave: a transport error is returned with the zero response, so is the error of
`json.Unmarshal`, else the parsed response is returned with a nil error. -/
def answerOf {α : Type} (parse : String → Except String α) (zero : α) :
    Except String String → α × Option GoError
  | .error httpErr => (zero, some (.transport httpErr))
  | .ok body =>
    match parse body with
    | .error jsonResponseParseErr => (zero, some (.json jsonResponseParseErr))
    | .ok apiResponse => (apiResponse, none)

/-- The tail that the six API calls share word for word: `client.Do(req)`,
`ioutil.ReadAll(resp.Body)`, `json.Unmarshal(body, &apiResponse)` and the
three returns.  The request is recorded, the collaborator answers. -/
def doRequest {α : Type} (env : Env) (parse : String → Except String α) (zero : α)
    (req : Request) (w : World) : (α × Option GoError) × World :=
  (answerOf parse zero (env.clientDo w.sent req), w.send req)

/-! ## rCryptChallenge.go -/

/-- `GetChallenge` fetches a challenge nonce from the server. -/
def GetChallenge (env : Env) (UserID : Nat) (Fingerprint : String) (UseTor : Bool)
    (w : World) : (ChallengeAPIResponse × Option GoError) × World :=
  match env.marshalChallengeRequest { UserID := UserID, Fingerprint := Fingerprint } with
  | .error jsonErr => (({}, some (.json jsonErr)), w)
  | .ok jsonBuf =>
    match env.newRequest "POST" (RIPACRYPTURL ++ "challenge/") with
    | some httpReqErr => (({}, some (.request httpReqErr)), w)
    | none =>
      let req : Request :=
        { method := "POST", url := RIPACRYPTURL ++ "challenge/", body := some jsonBuf,
          headers := stdHeaders, viaTor := UseTor }
      doRequest env env.unmarshalChallengeResponse {} req w

/-- `DecryptChallenge` takes an encrypted challenge nonce and a private key,
decrypts the challenge and returns the plaintext.  The variable `err` is
assigned three times before it is first tested: the errors of
`ReadArmoredKeyRing` and of `DecodeString` are overwritten, and the values
these two calls return along with their errors are used. -/
def DecryptChallenge (env : Env) (challenge privatekey : String) : String × Option GoError :=
  let (entityList, _) := env.readArmoredKeyRing privatekey
  let (dec, _) := env.decodeString challenge
  match env.readMessage dec entityList with
  | .error err => ("", some (.message err))
  | .ok UnverifiedBody =>
    match env.readAll UnverifiedBody with
    | (_, some err) => ("", some (.read err))
    | (bytes, none) => (bytes, none)

/-! ## rCryptNewCrypt.go -/

/-- `EncryptData` takes a plaintext string and an armoured public key and
returns the base64 text of the encrypted plaintext.  The final
`ioutil.ReadAll(buf)` reads a `bytes.Buffer`, which cannot fail: `close`
yields the bytes it returns. -/
def EncryptData (env : Env) (clearText publicKey : String) : String × Option GoError :=
  match env.readArmoredKeyRing publicKey with
  | (entityList, none) =>
    match env.encrypt entityList with
    | .error err => ("", some (.encrypt err))
    | .ok w =>
      match env.write w clearText with
      | .error err => ("", some (.encrypt err))
      | .ok w1 =>
        match env.close w1 with
        | .error err => ("", some (.encrypt err))
        | .ok bytes => (env.encodeToString bytes, none)
  | (_, some err) => ("", some (.keyring err))

/-- `NewCrypt` encrypts the secret (if not already encrypted), requests a
challenge nonce, decrypts it and submits the payload to `crypt/new/`. -/
def NewCrypt (env : Env) (dataToStore Description : String) (CheckInDuration MissCount : Int)
    (IsEncrypted : Bool) (conf : CoreConf) (w : World) :
    (NewCryptAPIResponse × Option GoError) × World :=
  match (if IsEncrypted = false then EncryptData env dataToStore conf.PublicKey
         else (dataToStore, none)) with
  | (_, some encryptErr) => (({}, some encryptErr), w)
  | (encryptedData, none) =>
    let ((challengeAPIResponse, challengeErr), w1) :=
      GetChallenge env conf.UserID conf.Fingerprint conf.UseTor w
    match DecryptChallenge env challengeAPIResponse.Challenge conf.PrivateKey with
    | (_, some _) => (({}, challengeErr), w1)
    | (decryptedChallenge, none) =>
      match env.marshalCryptRequest
          { UserID := conf.UserID, Description := Description, CryptContent := encryptedData,
            Challenge := decryptedChallenge, ChallengeID := challengeAPIResponse.ChallengeID,
            CheckInDuration := CheckInDuration, MissCount := MissCount } with
      | .error jsonErr => (({}, some (.json jsonErr)), w1)
      | .ok jsonBuf =>
        match env.newRequest "POST" (RIPACRYPTURL ++ "crypt/new/") with
        | some httpReqErr => (({}, some (.request httpReqErr)), w1)
        | none =>
          let req : Request :=
            { method := "POST", url := RIPACRYPTURL ++ "crypt/new/", body := some jsonBuf,
              headers := stdHeaders, viaTor := conf.UseTor }
          doRequest env env.unmarshalCryptResponse {} req w1

/-! ## rCryptCheckin.go -/

/-- `Checkin` requests a challenge nonce, decrypts it and sends a POST to
`crypt/CRYPTID/` to reset the deadline of a crypt. -/
def Checkin (env : Env) (conf : CoreConf) (cryptID : String) (w : World) :
    (NewCryptAPIResponse × Option GoError) × World :=
  let ((challengeAPIResponse, challengeErr), w1) :=
    GetChallenge env conf.UserID conf.Fingerprint conf.UseTor w
  match DecryptChallenge env challengeAPIResponse.Challenge conf.PrivateKey with
  | (_, some _) => (({}, challengeErr), w1)
  | (decryptedChallenge, none) =>
    match env.marshalCheckinRequest
        { UserID := conf.UserID, Challenge := decryptedChallenge,
          ChallengeID := challengeAPIResponse.ChallengeID } with
    | .error jsonErr => (({}, some (.json jsonErr)), w1)
    | .ok jsonBuf =>
      match env.newRequest "POST" (RIPACRYPTURL ++ "crypt/" ++ cryptID ++ "/") with
      | some httpReqErr => (({}, some (.request httpReqErr)), w1)
      | none =>
        let req : Request :=
          { method := "POST", url := RIPACRYPTURL ++ "crypt/" ++ cryptID ++ "/",
            body := some jsonBuf, headers := stdHeaders, viaTor := conf.UseTor }
        doRequest env env.unmarshalCryptResponse {} req w1

/-! ## rCryptNewBTC.go -/

/-- `GetBTC` asks the server for a new bitcoin address for the account. -/
def GetBTC (env : Env) (conf : CoreConf) (w : World) :
    (APIRegisterResponse × Option GoError) × World :=
  let URL := if conf.UseTor = true then env.HSURL else RIPACRYPTURL
  let ((challengeAPIResponse, challengeErr), w1) :=
    GetChallenge env conf.UserID conf.Fingerprint conf.UseTor w
  match DecryptChallenge env challengeAPIResponse.Challenge conf.PrivateKey with
  | (_, some _) => (({}, challengeErr), w1)
  | (decryptedChallenge, none) =>
    match env.marshalBTCRequest
        { UserID := conf.UserID, Challenge := decryptedChallenge,
          ChallengeID := challengeAPIResponse.ChallengeID } with
    | .error jsonErr => (({}, some (.json jsonErr)), w1)
    | .ok jsonBuf =>
      match env.newRequest "POST" (URL ++ "newbtc/") with
      | some httpReqErr => (({}, some (.request httpReqErr)), w1)
      | none =>
        let req : Request :=
          { method := "POST", url := URL ++ "newbtc/", body := some jsonBuf,
            headers := stdHeaders, viaTor := conf.UseTor }
        doRequest env env.unmarshalRegisterResponse {} req w1

/-! ## rCryptGet.go -/

/-- `GetCrypt` retrieves the crypt of that id. -/
def GetCrypt (env : Env) (conf : CoreConf) (cryptID : String) (w : World) :
    (NewCryptAPIResponse × Option GoError) × World :=
  match env.newRequest "GET" (RIPACRYPTURL ++ "crypt/" ++ cryptID ++ "/") with
  | some httpReqErr => (({}, some (.request httpReqErr)), w)
  | none =>
    let req : Request :=
      { method := "GET", url := RIPACRYPTURL ++ "crypt/" ++ cryptID ++ "/", body := none,
        headers := stdHeaders, viaTor := conf.UseTor }
    doRequest env env.unmarshalCryptResponse {} req w

/-- `DecryptCrypt` takes the base64 ciphertext of a crypt and a private key and
returns the plaintext.  As in `DecryptChallenge`, the errors of
`ReadArmoredKeyRing` and of `DecodeString` are overwritten before any test. -/
def DecryptCrypt (env : Env) (crypt privatekey : String) : String × Option GoError :=
  let (entityList, _) := env.readArmoredKeyRing privatekey
  let (dec, _) := env.decodeString crypt
  match env.readMessage dec entityList with
  | .error err => ("", some (.message err))
  | .ok UnverifiedBody =>
    match env.readAll UnverifiedBody with
    | (_, some err) => ("", some (.read err))
    | (bytes, none) => (bytes, none)

/-! ## rCryptRegister.go -/

/-- `RIPACryptRegister` submits a public key to the API to register a new
account. -/
def RIPACryptRegister (env : Env) (PublicKey : String) (useTor : Bool) (w : World) :
    (APIRegisterResponse × Option GoError) × World :=
  match env.marshalRegisterRequest { PublicKey := PublicKey } with
  | .error jsonErr => (({}, some (.json jsonErr)), w)
  | .ok jsonBuf =>
    match env.newRequest "POST" (RIPACRYPTURL ++ "register/") with
    | some httpReqErr => (({}, some (.request httpReqErr)), w)
    | none =>
      let req : Request :=
        { method := "POST", url := RIPACRYPTURL ++ "register/", body := some jsonBuf,
          headers := stdHeaders, viaTor := useTor }
      doRequest env env.unmarshalRegisterResponse {} req w

/-- `VerifyGPGPublicKey` parses an armoured key and returns the key id of the
first entity.  `none` is the run-time panic of `entityList[0]` on an empty
list. -/
def VerifyGPGPublicKey (env : Env) (PublicKey : String) : Option (String × Option GoError) :=
  match env.readArmoredKeyRing PublicKey with
  | (_, some armorErr) => some ("", some (.keyring armorErr))
  | (entityList, none) =>
    match entityList with
    | [] => none
    | e :: _ => some (env.keyIdString e, none)

/-- `RandStringRunes` generates a string of `n` letters.  The loop body draws
one letter with `rand.Intn(len(letterRunes))`; an index out of range is a
run-time panic, `none`. -/
def RandStringRunes (env : Env) : Nat → World → Option String × World
  | 0, w => (some "", w)
  | n + 1, w =>
    match letterRunes.get? (env.intn w.rngPos letterRunes.length) with
    | none => (none, { w with rngPos := w.rngPos + 1 })
    | some c =>
      match RandStringRunes env n { w with rngPos := w.rngPos + 1 } with
      | (none, w1) => (none, w1)
      | (some rest, w1) => (some (String.mk (c :: rest.data)), w1)

/-! ## rcrypt.go: the command line -/

/-- The flags of `register`, with their defaults. -/
structure RegisterFlags where
  publickey : String := ""
  usetor : Bool := false
  name : String := "Anonymous"
  comment : String := ""
  email : String := ""
  debug : Bool := false
  deriving DecidableEq, Repr

/-- The flags of `new`, with their defaults. -/
structure NewFlags where
  data : String := ""
  isencrypted : Bool := false
  usetor : Bool := false
  description : String := ""
  checkinduration : Int := 86400
  misscount : Int := 3
  debug : Bool := false
  deriving DecidableEq, Repr

/-- The flags of `checkin`, with their defaults. -/
structure CheckinFlags where
  crypt : String := ""
  usetor : Bool := false
  debug : Bool := false
  deriving DecidableEq, Repr

/-- The flags of `getchallenge`, with their defaults. -/
structure ChallengeFlags where
  usetor : Bool := false
  decrypt : Bool := false
  debug : Bool := false
  deriving DecidableEq, Repr

/-- The flags of `newbtc`, with their defaults. -/
structure NewBTCFlags where
  usetor : Bool := false
  debug : Bool := false
  deriving DecidableEq, Repr

/-- The command line after `flag` has parsed it: no argument at all, one of
the five subcommands with its flags, or another first argument. -/
inductive Command where
  | usage
  | register (f : RegisterFlags)
  | new (f : NewFlags)
  | checkin (f : CheckinFlags)
  | getchallenge (f : ChallengeFlags)
  | newbtc (f : NewBTCFlags)
  | invalid (arg : String)
  deriving DecidableEq, Repr

/-- How a run of `main` ends: it returns, it panics at run time, or it calls
`os.Exit` (directly or through `log.Fatal`). -/
inductive Exit where
  | returned
  | panicked
  | exited (code : Nat)
  deriving DecidableEq, Repr

/-- The value of `openpgp.PublicKeyType`. -/
def PublicKeyType : String := "PGP PUBLIC KEY BLOCK"

/-- The value of `openpgp.PrivateKeyType`. -/
def PrivateKeyType : String := "PGP PRIVATE KEY BLOCK"

/-- The call `strings.Contains(s, sub)`. -/
def stringsContains (s sub : String) : Bool :=
  s.data.tails.any (fun t => sub.data.isPrefixOf t)

/-- The loop `for _, id := range pgpEntity.Identities` of `main`: each identity
is signed and then given the preferred hash 8; the first signing error ends
the run. -/
def signIdentities (env : Env) : List String → env.Entity → Except String env.Entity
  | [], e => .ok e
  | id :: ids, e =>
    match env.signUserId e id with
    | .error err => .error err
    | .ok e1 => signIdentities env ids (env.setPreferredHash e1 id [8])

/-- The statements of `main` that settle `PublicKey`, `PrivateKey` and
`PublicKeyFingerprint` for `register` (rcrypt.go, lines 138 to 211).  The
result is these three strings, or the way the run ends there. -/
def registerKeys (env : Env) (f : RegisterFlags) (w : World) :
    Except Exit (String × String × String) × World :=
  if f.publickey = "" then
    let (newEmail, w1) : Option String × World :=
      if f.email = "" then
        match RandStringRunes env 24 w with
        | (none, w1) => (none, w1)
        | (some r, w1) => (some (r ++ "@clients.ripacrypt.download"), w1)
      else (some f.email, w)
    match newEmail with
    | none => (.error .panicked, w1)
    | some newEmail =>
      let w2 := { w1 with generated := w1.generated ++ [(f.name, f.comment, newEmail)] }
      match env.newEntity f.name f.comment newEmail with
      | .error _ =>
        -- the error is printed and the run goes on: `pgpEntity` is nil and
        -- `pgpEntity.Identities` dereferences it
        (.error .panicked, w2)
      | .ok pgpEntity =>
        match signIdentities env (env.identities pgpEntity) pgpEntity with
        | .error _ => (.error .returned, w2)
        | .ok pgpEntity =>
          let err1 := env.armorEncode PublicKeyType
          let err2 := env.armorEncode PrivateKeyType
          if err1 ≠ none ∨ err2 ≠ none then (.error .returned, w2)
          else
            let (PrivateKey, pgpEntity) := env.serializePrivate pgpEntity
            let PublicKey := env.serialize pgpEntity
            match VerifyGPGPublicKey env PublicKey with
            | none => (.error .panicked, w2)
            | some (_, some _) => (.error .returned, w2)
            | some (fingerprint, none) => (.ok (PublicKey, PrivateKey, fingerprint), w2)
  else
    -- the error of `ioutil.ReadFile` is printed and the run goes on
    let (b, _) := env.readFile f.publickey
    let PublicKey := b
    match VerifyGPGPublicKey env PublicKey with
    | none => (.error .panicked, w)
    | some (_, some _) => (.error .returned, w)
    | some (fingerprint, none) => (.ok (PublicKey, "", fingerprint), w)

/-- The block `if registerCommand.Parsed()` of `main`.  The result is the way
the run ends, the final value of the variable `conf` and the effects. -/
def mainRegister (env : Env) (f : RegisterFlags) (conf : CoreConf) (w : World) :
    Exit × CoreConf × World :=
  if conf.UserID ≠ 0 then (.returned, conf, w)
  else
    match registerKeys env f w with
    | (.error exit, w1) => (exit, conf, w1)
    | (.ok (PublicKey, PrivateKey, PublicKeyFingerprint), w1) =>
      let conf := if f.usetor = true ∨ conf.UseTor = true then { conf with UseTor := true } else conf
      match RIPACryptRegister env PublicKey conf.UseTor w1 with
      | ((_, some _), w2) => (.returned, conf, w2)
      | ((apiResponse, none), w2) =>
        let conf :=
          { conf with UserID := apiResponse.UserID, BTCAddr := apiResponse.BTCAddr,
                      PublicKey := PublicKey, PrivateKey := PrivateKey,
                      Fingerprint := PublicKeyFingerprint }
        match env.marshalConf conf with
        | .error _ => (.returned, conf, w2)
        | .ok configFileBuffer =>
          let dir := env.home ++ "/.ripacrypt/"
          let w3 := { w2 with mkdirs := w2.mkdirs ++ [dir] }
          match env.mkdir dir with
          | some mkDirErr =>
            if stringsContains mkDirErr "file exists" = false then (.returned, conf, w3)
            else
              (.returned, conf,
                { w3 with writes := w3.writes ++ [(env.home ++ "/.ripacrypt/rc.conf", configFileBuffer)] })
          | none =>
            (.returned, conf,
              { w3 with writes := w3.writes ++ [(env.home ++ "/.ripacrypt/rc.conf", configFileBuffer)] })

/-- The block `if newCommand.Parsed()` of `main`. -/
def mainNew (env : Env) (f : NewFlags) (conf : CoreConf) (w : World) : Exit × CoreConf × World :=
  let dataToStore : Option String :=
    if f.data = "" then
      if env.stdinIsPiped = true then some env.stdin else none
    else
      match env.readFile f.data with
      | (_, some _) => none
      | (b, none) => some b
  match dataToStore with
  | none => (.returned, conf, w)
  | some dataToStore =>
    if conf.UserID = 0 then (.returned, conf, w)
    else
      let conf := if f.usetor = true ∨ conf.UseTor = true then { conf with UseTor := true } else conf
      let (_, w1) :=
        NewCrypt env dataToStore f.description f.checkinduration f.misscount f.isencrypted conf w
      (.returned, conf, w1)

/-- The block `if challengeCommand.Parsed()` of `main`.  What it does with the
challenge, decrypting it included, only reaches the terminal. -/
def mainGetChallenge (env : Env) (f : ChallengeFlags) (conf : CoreConf) (w : World) :
    Exit × CoreConf × World :=
  let conf := if f.usetor = true ∨ conf.UseTor = true then { conf with UseTor := true } else conf
  let (_, w1) := GetChallenge env conf.UserID conf.Fingerprint conf.UseTor w
  (.returned, conf, w1)

/-- The block `if newBTCCommand.Parsed()` of `main`. -/
def mainNewBTC (env : Env) (f : NewBTCFlags) (conf : CoreConf) (w : World) :
    Exit × CoreConf × World :=
  let conf := if f.usetor = true ∨ conf.UseTor = true then { conf with UseTor := true } else conf
  let (_, w1) := GetBTC env conf w
  (.returned, conf, w1)

/-- The block `if checkinCommand.Parsed()` of `main`. -/
def mainCheckin (env : Env) (f : CheckinFlags) (conf : CoreConf) (w : World) :
    Exit × CoreConf × World :=
  if f.crypt = "" then (.returned, conf, w)
  else
    let conf := if f.usetor = true ∨ conf.UseTor = true then { conf with UseTor := true } else conf
    let (_, w1) := Checkin env conf f.crypt w
    (.returned, conf, w1)

/-- `readConfig` loads the config file; a file that cannot be read gives the
defaults, a file that cannot be parsed ends the run (`log.Fatal`), `none`. -/
def readConfig (env : Env) : Option CoreConf :=
  match env.readFile (env.home ++ "/.ripacrypt/rc.conf") with
  | (_, some _) => some {}
  | (b, none) =>
    match env.unmarshalConf b with
    | .error _ => none
    | .ok conf => some conf

/-- `main`: the usage text without arguments, else the config is read and the
block of the subcommand runs. -/
def main (env : Env) (cmd : Command) (w : World) : Exit × CoreConf × World :=
  match cmd with
  | .usage => (.returned, {}, w)
  | cmd =>
    match readConfig env with
    | none => (.exited 1, {}, w)
    | some conf =>
      match cmd with
      | .usage => (.returned, conf, w)
      | .register f => mainRegister env f conf w
      | .new f => mainNew env f conf w
      | .checkin f => mainCheckin env f conf w
      | .getchallenge f => mainGetChallenge env f conf w
      | .newbtc f => mainNewBTC env f conf w
      | .invalid _ => (.exited 2, conf, w)

/-! ## The challenge stage of the write operations

`Checkin`, `NewCrypt` and `GetBTC` fetch and decrypt a challenge with the same
two statements; the statements of the theorems name their results. -/

/-- The result of `GetChallenge(conf.UserID, conf.Fingerprint, conf.UseTor)`. -/
abbrev challengeOf (env : Env) (conf : CoreConf) (w : World) :
    (ChallengeAPIResponse × Option GoError) × World :=
  GetChallenge env conf.UserID conf.Fingerprint conf.UseTor w

/-- The result of `DecryptChallenge(challengeAPIResponse.Challenge,
conf.PrivateKey)` on the response of that call. -/
abbrev decryptedOf (env : Env) (conf : CoreConf) (w : World) : String × Option GoError :=
  DecryptChallenge env (challengeOf env conf w).1.1.Challenge conf.PrivateKey

/-! ## A stand-in for the collaborators

`demoEnv` is a small, executable stand-in for the libraries and for a server,
used to run the model on concrete inputs.  Base64 is the standard alphabet
with padding and decodes the way `DecodeString` does: line breaks are skipped
and the bytes decoded before a corrupt position are returned along with the
error.  An OpenPGP message is either a literal-data packet (new-format tag
`0xCB`, one-octet length, empty file name), which is not encrypted and opens
with any key ring, or a stand-in for an encrypted message: `0xC1`, the length
of a key id, the key id, `0xD2` and the body, which opens only with a ring
that holds the private key of that id. -/

/-- The standard base64 alphabet. -/
def b64Alphabet : List Char :=
  "ABCDEFGHIJKLMNOPQRSTUVWXYZabcdefghijklmnopqrstuvwxyz0123456789+/".data

/-- The value of a base64 character (`decodeMap`). -/
def b64Value (c : Char) : Option Nat :=
  if b64Alphabet.indexOf c < 64 then some (b64Alphabet.indexOf c) else none

/-- Base64 encoding of a byte sequence, with padding. -/
def b64Encode : List Char → List Char
  | a :: b :: c :: rest =>
    let v := a.toNat % 256 * 65536 + b.toNat % 256 * 256 + c.toNat % 256
    b64Alphabet.getD (v / 262144 % 64) 'A' :: b64Alphabet.getD (v / 4096 % 64) 'A' ::
      b64Alphabet.getD (v / 64 % 64) 'A' :: b64Alphabet.getD (v % 64) 'A' :: b64Encode rest
  | [a, b] =>
    let v := a.toNat % 256 * 65536 + b.toNat % 256 * 256
    [b64Alphabet.getD (v / 262144 % 64) 'A', b64Alphabet.getD (v / 4096 % 64) 'A',
      b64Alphabet.getD (v / 64 % 64) 'A', '=']
  | [a] =>
    let v := a.toNat % 256 * 65536
    [b64Alphabet.getD (v / 262144 % 64) 'A', b64Alphabet.getD (v / 4096 % 64) 'A', '=', '=']
  | [] => []

/-- The bytes of a quantum of `q.length` sextets (`dlen - 1` of them). -/
def quantumBytes (q : List Nat) : List Char :=
  let val := q.getD 0 0 * 262144 + q.getD 1 0 * 4096 + q.getD 2 0 * 64 + q.getD 3 0
  ([val / 65536 % 256, val / 256 % 256, val % 256].take (q.length - 1)).map Char.ofNat

/-- The loop that skips line breaks after a padding character. -/
def skipNewlines : List Char → List Char
  | [] => []
  | c :: cs => if c = '\n' ∨ c = '\r' then skipNewlines cs else c :: cs

/-- Base64 decoding as `Decode` does it: `q` holds the sextets of the quantum
being read, `out` the bytes decoded so far. -/
def b64Decode : List Char → List Nat → List Char → List Char × Option String
  | [], q, out => if q.length = 0 then (out, none) else (out, some "illegal base64 data")
  | c :: cs, q, out =>
    match b64Value c with
    | some v =>
      if q.length = 3 then b64Decode cs [] (out ++ quantumBytes (q ++ [v]))
      else b64Decode cs (q ++ [v]) out
    | none =>
      if c = '\n' ∨ c = '\r' then b64Decode cs q out
      else if c ≠ '=' then (out, some "illegal base64 data")
      else if q.length < 2 then (out, some "illegal base64 data")
      else if q.length = 2 then
        match skipNewlines cs with
        | [] => (out, some "illegal base64 data")
        | c2 :: cs2 =>
          if c2 ≠ '=' then (out, some "illegal base64 data")
          else if skipNewlines cs2 = [] then (out ++ quantumBytes q, none)
          else (out ++ quantumBytes q, some "illegal base64 data")
      else if skipNewlines cs = [] then (out ++ quantumBytes q, none)
      else (out ++ quantumBytes q, some "illegal base64 data")

/-- An entity of the stand-in: a key id, and whether the private key is held. -/
structure DemoEntity where
  keyId : String
  secret : Bool
  deriving DecidableEq, Repr

/-- The writer of the stand-in: the recipient and the bytes written so far. -/
structure DemoWriter where
  keyId : String
  buf : List Char
  deriving DecidableEq, Repr

/-- Key rings of the stand-in: `PUB:` or `SEC:` followed by a key id. -/
def demoReadArmoredKeyRing (s : String) : List DemoEntity × Option String :=
  match s.data with
  | 'P' :: 'U' :: 'B' :: ':' :: id => ([⟨String.mk id, false⟩], none)
  | 'S' :: 'E' :: 'C' :: ':' :: id => ([⟨String.mk id, true⟩], none)
  | _ => ([], some "openpgp: invalid argument: no armored data found")

/-- Opening a message of the stand-in. -/
def demoReadMessage (dec : String) (ring : List DemoEntity) : Except String String :=
  match dec.data with
  | [] => .error "EOF"
  | [_] => .error "unexpected EOF"
  | tag :: len :: rest =>
    if tag.toNat = 0xCB then
      match rest with
      | _ :: fn :: _ :: _ :: _ :: _ :: body =>
        if fn.toNat = 0 ∧ len.toNat = body.length + 6 then .ok (String.mk body)
        else .error "openpgp: invalid data: literal data packet"
      | _ => .error "unexpected EOF"
    else if tag.toNat = 0xC1 then
      match rest.drop len.toNat with
      | sep :: body =>
        if sep.toNat = 0xD2 ∧ ring.any (fun e => e.secret && e.keyId.data == rest.take len.toNat)
        then .ok (String.mk body)
        else .error "openpgp: incorrect key"
      | [] => .error "unexpected EOF"
    else .error "openpgp: invalid data: tag byte does not have MSB set"

/-- Encrypting with the stand-in: the message is addressed to the first entity
of the ring. -/
def demoEncrypt (ring : List DemoEntity) : Except String DemoWriter :=
  match ring with
  | [] => .error "openpgp: invalid argument: no recipient"
  | e :: _ => .ok ⟨e.keyId, []⟩

/-- Closing the writer of the stand-in: the bytes of the message. -/
def demoClose (w : DemoWriter) : Except String String :=
  .ok (String.mk (Char.ofNat 0xC1 :: Char.ofNat w.keyId.data.length :: (w.keyId.data ++
    Char.ofNat 0xD2 :: w.buf)))

deriving instance DecidableEq for Except

/-- A JSON object with these members. -/
def jsonObject (members : String) : String := "\x7b" ++ members ++ "\x7d"

/-- A JSON string; the stand-in does not escape. -/
def jsonString (s : String) : String := "\"" ++ s ++ "\""

/-- The answer of the stand-in server to a challenge request of user 7 with
fingerprint `K7`: the nonce `nonce-42`, addressed to key `K7`, in base64. -/
def demoChallengeBody : String :=
  jsonObject ("\"challenge\":\"wQJLN9Jub25jZS00Mg==\",\"challenge_id\":42,\"user_id\":7," ++
    "\"status_code\":200,\"success\":true,\"status_message\":\"ok\",\"version\":1")

/-- The answer of the stand-in server to any other challenge request. -/
def demoUnknownUserBody : String :=
  jsonObject "\"status_code\":403,\"success\":false,\"status_message\":\"unknown user\",\"version\":1"

/-- The answer of the stand-in server for the crypt `c1`. -/
def demoCryptBody : String :=
  jsonObject ("\"status_code\":200,\"success\":true,\"status_message\":\"ok\",\"version\":1," ++
    "\"crypt\":" ++ jsonObject "\"crypt_id\":\"c1\",\"check_in_duration\":86400,\"miss_count\":3")

/-- The answer of the stand-in server for a crypt it does not hold. -/
def demoNotFoundBody : String :=
  jsonObject "\"status_code\":404,\"success\":false,\"status_message\":\"crypt not found\",\"version\":1"

/-- The answer of the stand-in server to `register/` and to `newbtc/`. -/
def demoAccountBody : String :=
  jsonObject ("\"status_code\":200,\"success\":true,\"status_message\":\"ok\",\"version\":1," ++
    "\"btc_addr\":\"1BoatSLRHtKNngkdXEeobR76b53LETtpyT\",\"user_id\":7")

/-- The stand-in server.  The SOCKS proxy is not running; the crypt `c1` exists,
the path `crypt/html/` answers with a page that is not JSON. -/
def demoServer (_ : List Request) (req : Request) : Except String String :=
  if req.viaTor = true then .error "socks connect tcp localhost:9050: connection refused"
  else if req.url = RIPACRYPTURL ++ "challenge/" then
    if req.body = some (jsonObject "\"user_id\":7,\"fingerprint\":\"K7\"") then .ok demoChallengeBody
    else .ok demoUnknownUserBody
  else if req.url = RIPACRYPTURL ++ "crypt/new/" then .ok demoCryptBody
  else if req.url = RIPACRYPTURL ++ "crypt/c1/" then .ok demoCryptBody
  else if req.url = RIPACRYPTURL ++ "crypt/html/" then .ok "<html>502 Bad Gateway</html>"
  else if req.url = RIPACRYPTURL ++ "register/" then .ok demoAccountBody
  else if req.url = RIPACRYPTURL ++ "newbtc/" then .ok demoAccountBody
  else .ok demoNotFoundBody

/-- The account of the stand-in server: user 7 with the key pair `K7`. -/
def demoConf : CoreConf :=
  { UserID := 7, BTCAddr := "1BoatSLRHtKNngkdXEeobR76b53LETtpyT", PublicKey := "PUB:K7",
    PrivateKey := "SEC:K7", Fingerprint := "K7" }

/-- The config file of that account. -/
def demoConfBody : String :=
  jsonObject ("\"usetor\":false,\"userid\":7,\"btcaddr\":\"1BoatSLRHtKNngkdXEeobR76b53LETtpyT\"," ++
    "\"public_key\":\"PUB:K7\",\"private_key\":\"SEC:K7\",\"fingerprint\":\"K7\"")

/-- The stand-in for the libraries and the surroundings of a run: the server
above, and a disk that holds the config file of user 7 and a file
`secret.txt`. -/
def demoEnv : Env where
  Entity := DemoEntity
  Body := String
  Writer := DemoWriter
  readArmoredKeyRing := demoReadArmoredKeyRing
  readMessage := demoReadMessage
  readAll := fun body => (body, none)
  encrypt := demoEncrypt
  write := fun w s => .ok { w with buf := w.buf ++ s.data }
  close := demoClose
  keyIdString := fun e => if e.keyId = "" then "0" else e.keyId
  newEntity := fun _ _ _ => .ok ⟨"K7", true⟩
  identities := fun _ => ["Anonymous"]
  signUserId := fun e _ => .ok e
  setPreferredHash := fun e _ _ => e
  armorEncode := fun _ => none
  serializePrivate := fun e => ("SEC:" ++ e.keyId, e)
  serialize := fun e => "PUB:" ++ e.keyId
  encodeToString := fun b => String.mk (b64Encode b.data)
  decodeString := fun s => (String.mk (b64Decode s.data [] []).1, (b64Decode s.data [] []).2)
  marshalChallengeRequest := fun r =>
    .ok (jsonObject ("\"user_id\":" ++ toString r.UserID ++ ",\"fingerprint\":" ++
      jsonString r.Fingerprint))
  marshalCheckinRequest := fun r =>
    .ok (jsonObject ("\"user_id\":" ++ toString r.UserID ++ ",\"challenge\":" ++
      jsonString r.Challenge ++ ",\"challenge_id\":" ++ toString r.ChallengeID))
  marshalCryptRequest := fun r =>
    .ok (jsonObject ("\"user_id\":" ++ toString r.UserID ++ ",\"crypt_content\":" ++
      jsonString r.CryptContent ++ ",\"challenge\":" ++ jsonString r.Challenge ++
      ",\"challenge_id\":" ++ toString r.ChallengeID ++ ",\"description\":" ++
      jsonString r.Description ++ ",\"checkin_duration\":" ++ toString r.CheckInDuration ++
      ",\"miss_count\":" ++ toString r.MissCount))
  marshalBTCRequest := fun r =>
    .ok (jsonObject ("\"user_id\":" ++ toString r.UserID ++ ",\"challenge\":" ++
      jsonString r.Challenge ++ ",\"challenge_id\":" ++ toString r.ChallengeID))
  marshalRegisterRequest := fun r => .ok (jsonObject ("\"public_key\":" ++ jsonString r.PublicKey))
  marshalConf := fun c =>
    .ok (jsonObject ("\"usetor\":" ++ toString c.UseTor ++ ",\"userid\":" ++ toString c.UserID ++
      ",\"btcaddr\":" ++ jsonString c.BTCAddr ++ ",\"public_key\":" ++ jsonString c.PublicKey ++
      ",\"private_key\":" ++ jsonString c.PrivateKey ++ ",\"fingerprint\":" ++
      jsonString c.Fingerprint))
  unmarshalChallengeResponse := fun body =>
    if body = demoChallengeBody then
      .ok { Challenge := "wQJLN9Jub25jZS00Mg==", ChallengeID := 42, UserID := 7, StatusCode := 200,
            Success := true, Message := "ok", Version := 1 }
    else if body = demoUnknownUserBody then
      .ok { StatusCode := 403, Success := false, Message := "unknown user", Version := 1 }
    else .error "invalid character looking for beginning of value"
  unmarshalCryptResponse := fun body =>
    if body = demoCryptBody then
      .ok { StatusCode := 200, Success := true, Message := "ok", Version := 1,
            CryptPayload := { CryptID := "c1", CheckInDuration := 86400, MissCount := 3 } }
    else if body = demoNotFoundBody then
      .ok { StatusCode := 404, Success := false, Message := "crypt not found", Version := 1 }
    else .error "invalid character looking for beginning of value"
  unmarshalRegisterResponse := fun body =>
    if body = demoAccountBody then
      .ok { StatusCode := 200, Success := true, Message := "ok", Version := 1,
            BTCAddr := "1BoatSLRHtKNngkdXEeobR76b53LETtpyT", UserID := 7 }
    else .error "invalid character looking for beginning of value"
  unmarshalConf := fun b =>
    if b = demoConfBody then .ok demoConf else .error "unexpected end of JSON input"
  newRequest := fun _ _ => none
  clientDo := demoServer
  HSURL := "http://ripacrypt.onion/1/"
  intn := fun i n => (7 * i + 3) % n
  home := "/home/user"
  readFile := fun path =>
    if path = "/home/user/.ripacrypt/rc.conf" then (demoConfBody, none)
    else if path = "secret.txt" then ("secret", none)
    else ("", some "open: no such file or directory")
  mkdir := fun _ => some "mkdir /home/user/.ripacrypt/: file exists"
  stdinIsPiped := false
  stdin := ""


/-- The request that `NewCrypt` submits in the stand-in for user 7, the
plaintext `secret`, the description `d` and the default deadline. -/
def demoNewCryptRequest : Request :=
  { method := "POST", url := "https://ripacrypt.download/1/crypt/new/",
    body := some (jsonObject ("\"user_id\":7,\"crypt_content\":\"wQJLN9JzZWNyZXQ=\"," ++
      "\"challenge\":\"nonce-42\",\"challenge_id\":42,\"description\":\"d\"," ++
      "\"checkin_duration\":86400,\"miss_count\":3")),
    headers := stdHeaders, viaTor := false }

/-- The stand-in before registration: there is no config file yet. -/
def freshEnv : Env :=
  { demoEnv with readFile := fun _ => ("", some "open: no such file or directory"),
                 mkdir := fun _ => none }

/-- The stand-in with a transparent text encoding in the place of base64. -/
def plainEnv : Env :=
  { demoEnv with encodeToString := fun b => b, decodeString := fun s => (s, none) }

/-! ## Contracts of the collaborators -/

/-- The contract of `encoding/base64`: `DecodeString` returns the bytes that
`EncodeToString` was given, and no error. -/
def Env.Base64RoundTrip (env : Env) : Prop :=
  ∀ b : String, env.decodeString (env.encodeToString b) = (b, none)

/-- The contract of a valid key pair: both armoured keys parse, and a message
encrypted to the ring of the public key opens with the ring of the private
key and reads back as the plaintext that was written. -/
def Env.ValidKeyPair (env : Env) (pub priv : String) : Prop :=
  ∃ pk sk, env.readArmoredKeyRing pub = (pk, none) ∧ env.readArmoredKeyRing priv = (sk, none) ∧
    ∀ (p : String) (w w1 : env.Writer) (ct : String),
      env.encrypt pk = .ok w → env.write w p = .ok w1 → env.close w1 = .ok ct →
        ∃ body, env.readMessage ct sk = .ok body ∧ env.readAll body = (p, none)

/-- The contract for a message of no bytes: `DecodeString` of the empty string
is empty, and `ReadMessage` finds no packet to read, whatever the key ring. -/
def Env.EmptyMessageRejected (env : Env) : Prop :=
  env.decodeString "" = ("", none) ∧ ∀ ring, ∃ err, env.readMessage "" ring = .error err

/-- The contract of `rand.Intn`: for a positive bound the result is below it. -/
def Env.IntnInRange (env : Env) : Prop :=
  ∀ i n : Nat, 0 < n → env.intn i n < n

/-- The contract of `KeyIdString`: the hexadecimal text of a key id is never
empty. -/
def Env.KeyIdNonEmpty (env : Env) : Prop :=
  ∀ e : env.Entity, env.keyIdString e ≠ ""

/-- Whether a character is a hexadecimal digit. -/
def isHexDigit (c : Char) : Bool :=
  ('0' ≤ c && c ≤ '9') || ('a' ≤ c && c ≤ 'f') || ('A' ≤ c && c ≤ 'F')

/-- Whether a text holds a `%` that two hexadecimal digits do not follow, which
`url.Parse` rejects as an invalid URL escape. -/
def hasBadEscape : List Char → Bool
  | [] => false
  | '%' :: a :: b :: rest => if isHexDigit a && isHexDigit b then hasBadEscape rest else true
  | '%' :: _ => true
  | _ :: rest => hasBadEscape rest

/-- Whether a text holds one of the characters `packet.NewUserId` refuses in a
field of a user id. -/
def hasUserIdInvalid (s : String) : Bool :=
  s.data.any (fun c => c = '(' || c = ')' || c = '<' || c = '>' || c.toNat = 0)

/-- The stand-in before registration, with two refusals of the libraries added:
`http.NewRequest` rejects a URL with an invalid escape, and `openpgp.NewEntity`
rejects a name, comment or e-mail with a character a user id cannot hold. -/
def strictEnv : Env :=
  { freshEnv with
    newRequest := fun _ url =>
      if hasBadEscape url.data then some "parse: invalid URL escape" else none,
    newEntity := fun name comment email =>
      if hasUserIdInvalid name || hasUserIdInvalid comment || hasUserIdInvalid email then
        .error "openpgp: invalid argument: user id field contained invalid characters"
      else .ok ⟨"K7", true⟩ }

/-- The answer of a server that refuses a registration. -/
def demoRefusedBody : String :=
  jsonObject "\"status_code\":403,\"success\":false,\"status_message\":\"registration closed\",\"version\":1"

/-- The stand-in before registration, with a server that refuses to register. -/
def refusingEnv : Env :=
  { freshEnv with
    clientDo := fun _ _ => .ok demoRefusedBody,
    unmarshalRegisterResponse := fun body =>
      if body = demoRefusedBody then
        .ok { StatusCode := 403, Success := false, Message := "registration closed", Version := 1 }
      else .error "invalid character looking for beginning of value" }

/-- The stand-in with the SOCKS proxy running: the server answers the same
through Tor. -/
def torEnv : Env :=
  { demoEnv with clientDo := fun sent req => demoServer sent { req with viaTor := false } }

/-! ## Theorems -/

/-- `DecryptCrypt` and `DecryptChallenge` have the same body. -/
theorem DecryptCrypt_eq (env : Env) (c priv : String) :
    DecryptCrypt env c priv = DecryptChallenge env c priv := rfl

/-- C1. Round trip: with a base64 that decodes what it encoded and a valid key
pair, whenever `EncryptData p pub` returns `(c, nil)`, both
`DecryptChallenge c priv` and `DecryptCrypt c priv` return `(p, nil)`. -/
theorem EncryptData_roundtrip (env : Env) (p pub priv c : String)
    (hb64 : env.Base64RoundTrip) (hpair : env.ValidKeyPair pub priv)
    (henc : EncryptData env p pub = (c, none)) :
    DecryptChallenge env c priv = (p, none) ∧ DecryptCrypt env c priv = (p, none) := by
  obtain ⟨pk, sk, hpub, hpriv, hopen⟩ := hpair
  have key : DecryptChallenge env c priv = (p, none) := by
    unfold EncryptData at henc
    rw [hpub] at henc
    simp only at henc
    cases hw : env.encrypt pk with
    | error e => rw [hw] at henc; simp at henc
    | ok w =>
      rw [hw] at henc
      simp only at henc
      cases hw1 : env.write w p with
      | error e => rw [hw1] at henc; simp at henc
      | ok w1 =>
        rw [hw1] at henc
        simp only at henc
        cases hct : env.close w1 with
        | error e => rw [hct] at henc; simp at henc
        | ok ct =>
          rw [hct] at henc
          simp only [Prod.mk.injEq, and_true] at henc
          obtain ⟨body, hmsg, hread⟩ := hopen p w w1 ct hw hw1 hct
          unfold DecryptChallenge
          rw [← henc, hpriv, hb64 ct]
          simp only [hmsg, hread]
  exact ⟨key, (DecryptCrypt_eq env c priv).trans key⟩

/-- The stand-in with the transparent encoding meets the base64 contract. -/
theorem plainEnv_base64 : plainEnv.Base64RoundTrip := fun _ => rfl

/-- In the stand-in, `PUB:K7` and `SEC:K7` are a valid key pair. -/
theorem plainEnv_validKeyPair : plainEnv.ValidKeyPair "PUB:K7" "SEC:K7" := by
  refine ⟨[⟨"K7", false⟩], [⟨"K7", true⟩], rfl, rfl, ?_⟩
  intro p w w1 ct hw hw1 hct
  have e1 : w = ⟨"K7", []⟩ := by
    have : (Except.ok ⟨"K7", []⟩ : Except String DemoWriter) = .ok w := hw
    injection this with h; exact h.symm
  subst e1
  have e2 : w1 = ⟨"K7", p.data⟩ := by
    have : (Except.ok ⟨"K7", [] ++ p.data⟩ : Except String DemoWriter) = .ok w1 := hw1
    injection this with h; exact h.symm
  subst e2
  have e3 : ct = String.mk (Char.ofNat 0xC1 :: Char.ofNat 2 :: 'K' :: '7' :: Char.ofNat 0xD2 :: p.data) := by
    have : (Except.ok (String.mk (Char.ofNat 0xC1 :: Char.ofNat 2 :: 'K' :: '7' :: Char.ofNat 0xD2 :: p.data)) : Except String String) = .ok ct := hct
    injection this with h; exact h.symm
  subst e3
  refine ⟨p, ?_, rfl⟩
  have : demoReadMessage
      (String.mk (Char.ofNat 0xC1 :: Char.ofNat 2 :: 'K' :: '7' :: Char.ofNat 0xD2 :: p.data))
      [⟨"K7", true⟩] = .ok p := by
    simp [demoReadMessage]
  exact this

/-- The stand-in with the real base64 round-trips as well, on this input. -/
theorem demoEnv_roundtrip_example :
    EncryptData demoEnv "hello" "PUB:K7" = ("wQJLN9JoZWxsbw==", none) ∧
      DecryptChallenge demoEnv "wQJLN9JoZWxsbw==" "SEC:K7" = ("hello", none) := by
  decide

/-- C1, witness: in the stand-in, `hello` encrypted to `PUB:K7` decrypts with
`SEC:K7`. -/
theorem EncryptData_roundtrip_witness :
    plainEnv.Base64RoundTrip ∧ plainEnv.ValidKeyPair "PUB:K7" "SEC:K7" ∧
      EncryptData plainEnv "hello" "PUB:K7" = ("\xc1\x02K7\xd2hello", none) ∧
      DecryptChallenge plainEnv "\xc1\x02K7\xd2hello" "SEC:K7" = ("hello", none) ∧
      DecryptCrypt plainEnv "\xc1\x02K7\xd2hello" "SEC:K7" = ("hello", none) :=
  ⟨plainEnv_base64, plainEnv_validKeyPair, by decide,
    EncryptData_roundtrip plainEnv "hello" "PUB:K7" "SEC:K7" "\xc1\x02K7\xd2hello"
      plainEnv_base64 plainEnv_validKeyPair (by decide)⟩

/-- C2. Registration guard: when the loaded config has a non-zero `UserID`, the
`register` subcommand, whatever its flags and whatever the collaborators would
answer, returns at once: the config record is the loaded one and the effects
are the ones before the run (no request of `RIPACryptRegister` sent, no key
generated, no file written). -/
theorem register_guard (env : Env) (f : RegisterFlags) (conf : CoreConf) (w : World)
    (hload : readConfig env = some conf) (hid : conf.UserID ≠ 0) :
    main env (.register f) w = (.returned, conf, w) := by
  simp [main, hload, mainRegister, hid]

/-- C2, witness: the stand-in holds the config of user 7; `register` leaves
everything as it was, while on a disk without a config the same command sends
a request, generates a key and writes the file. -/
theorem register_guard_witness :
    readConfig demoEnv = some demoConf ∧ demoConf.UserID ≠ 0 ∧
      main demoEnv (.register {}) {} = (.returned, demoConf, {}) ∧
      (main freshEnv (.register {}) {}).2.2.sent.length = 1 ∧
      (main freshEnv (.register {}) {}).2.2.generated.length = 1 ∧
      (main freshEnv (.register {}) {}).2.2.writes.length = 1 :=
  ⟨by decide, by decide, register_guard demoEnv {} demoConf {} (by decide) (by decide),
    by decide, by decide, by decide⟩

/-! ### The shape of the calls -/

/-- A failing `GetChallenge` returns the zero response. -/
theorem GetChallenge_error_zero (env : Env) (u : Nat) (fp : String) (tor : Bool) (w : World)
    (e : GoError) (h : (GetChallenge env u fp tor w).1.2 = some e) :
    (GetChallenge env u fp tor w).1.1 = {} := by
  simp only [GetChallenge, doRequest, answerOf] at h ⊢
  repeat' split
  all_goals simp_all

/-- `GetChallenge` makes at most one request: the POST of the marshalled
`ClientChallengeRequest` to `challenge/`. -/
theorem GetChallenge_world (env : Env) (u : Nat) (fp : String) (tor : Bool) (w : World) :
    (GetChallenge env u fp tor w).2 = w ∨
      ∃ buf, env.marshalChallengeRequest { UserID := u, Fingerprint := fp } = .ok buf ∧
        (GetChallenge env u fp tor w).2 =
          w.send ⟨"POST", RIPACRYPTURL ++ "challenge/", some buf, stdHeaders, tor⟩ := by
  simp only [GetChallenge, doRequest]
  cases hm : env.marshalChallengeRequest { UserID := u, Fingerprint := fp } with
  | error e => exact Or.inl rfl
  | ok buf =>
    cases hr : env.newRequest "POST" (RIPACRYPTURL ++ "challenge/") with
    | some e => exact Or.inl rfl
    | none => exact Or.inr ⟨buf, rfl, rfl⟩

/-- The requests made before `GetChallenge` are a prefix of those made after. -/
theorem GetChallenge_sent_length (env : Env) (u : Nat) (fp : String) (tor : Bool) (w : World) :
    w.sent.length ≤ (GetChallenge env u fp tor w).2.sent.length := by
  rcases GetChallenge_world env u fp tor w with h | ⟨buf, _, h⟩
  · rw [h]
  · rw [h]; simp [World.send]

/-- When `GetChallenge` hands a request to `client.Do`, the request is the POST
of the marshalled `ClientChallengeRequest`, and the result is what the shared
tail makes of the answer. -/
theorem GetChallenge_submitted (env : Env) (u : Nat) (fp : String) (tor : Bool) (w : World)
    (req : Request) (h : (GetChallenge env u fp tor w).2.sent = w.sent ++ [req]) :
    ∃ buf, env.marshalChallengeRequest { UserID := u, Fingerprint := fp } = .ok buf ∧
      req = ⟨"POST", RIPACRYPTURL ++ "challenge/", some buf, stdHeaders, tor⟩ ∧
      (GetChallenge env u fp tor w).1 =
        answerOf env.unmarshalChallengeResponse {} (env.clientDo w.sent req) := by
  simp only [GetChallenge, doRequest] at h ⊢
  cases hm : env.marshalChallengeRequest { UserID := u, Fingerprint := fp } with
  | error e => simp [hm] at h
  | ok buf =>
    simp only [hm] at h ⊢
    cases hr : env.newRequest "POST" (RIPACRYPTURL ++ "challenge/") with
    | some e => simp [hr] at h
    | none =>
      simp only [hr, World.send, List.append_cancel_left_eq, List.cons.injEq, and_true] at h ⊢
      subst h
      exact ⟨buf, rfl, rfl, rfl⟩

/-- When `RIPACryptRegister` hands a request to `client.Do`, the request is the
POST of the marshalled `ClientRegisterRequest`, and the result is what the
shared tail makes of the answer. -/
theorem RIPACryptRegister_submitted (env : Env) (pk : String) (tor : Bool) (w : World)
    (req : Request) (h : (RIPACryptRegister env pk tor w).2.sent = w.sent ++ [req]) :
    ∃ buf, env.marshalRegisterRequest { PublicKey := pk } = .ok buf ∧
      req = ⟨"POST", RIPACRYPTURL ++ "register/", some buf, stdHeaders, tor⟩ ∧
      (RIPACryptRegister env pk tor w).1 =
        answerOf env.unmarshalRegisterResponse {} (env.clientDo w.sent req) := by
  simp only [RIPACryptRegister, doRequest] at h ⊢
  cases hm : env.marshalRegisterRequest { PublicKey := pk } with
  | error e => simp [hm] at h
  | ok buf =>
    simp only [hm] at h ⊢
    cases hr : env.newRequest "POST" (RIPACRYPTURL ++ "register/") with
    | some e => simp [hr] at h
    | none =>
      simp only [hr, World.send, List.append_cancel_left_eq, List.cons.injEq, and_true] at h ⊢
      subst h
      exact ⟨buf, rfl, rfl, rfl⟩

/-- When `GetCrypt` hands a request to `client.Do`, the request is the GET
without a body, and the result is what the shared tail makes of the answer. -/
theorem GetCrypt_submitted (env : Env) (conf : CoreConf) (cryptID : String) (w : World)
    (req : Request) (h : (GetCrypt env conf cryptID w).2.sent = w.sent ++ [req]) :
    req = ⟨"GET", RIPACRYPTURL ++ "crypt/" ++ cryptID ++ "/", none, stdHeaders, conf.UseTor⟩ ∧
      (GetCrypt env conf cryptID w).1 =
        answerOf env.unmarshalCryptResponse {} (env.clientDo w.sent req) := by
  simp only [GetCrypt, doRequest] at h ⊢
  cases hr : env.newRequest "GET" (RIPACRYPTURL ++ "crypt/" ++ cryptID ++ "/") with
  | some e => simp [hr] at h
  | none =>
    simp only [hr, World.send, List.append_cancel_left_eq, List.cons.injEq, and_true] at h ⊢
    subst h
    exact ⟨rfl, rfl⟩

/-- When the challenge does not decrypt, `Checkin` returns the zero response
and the error of `GetChallenge`, and its effects are those of `GetChallenge`. -/
theorem Checkin_of_decrypt_error (env : Env) (conf : CoreConf) (cryptID : String) (w : World)
    (h : (DecryptChallenge env
      (GetChallenge env conf.UserID conf.Fingerprint conf.UseTor w).1.1.Challenge
      conf.PrivateKey).2 ≠ none) :
    Checkin env conf cryptID w =
      (({}, (GetChallenge env conf.UserID conf.Fingerprint conf.UseTor w).1.2),
        (GetChallenge env conf.UserID conf.Fingerprint conf.UseTor w).2) := by
  unfold Checkin
  rcases hg : GetChallenge env conf.UserID conf.Fingerprint conf.UseTor w with ⟨⟨ch, cerr⟩, w1⟩
  rw [hg] at h
  rcases hd : DecryptChallenge env ch.Challenge conf.PrivateKey with ⟨plain, derr⟩
  cases derr with
  | none => simp [hd] at h
  | some d => simp [hd]

/-- When the challenge does not decrypt, `GetBTC` returns the zero response
and the error of `GetChallenge`, and its effects are those of `GetChallenge`. -/
theorem GetBTC_of_decrypt_error (env : Env) (conf : CoreConf) (w : World)
    (h : (DecryptChallenge env
      (GetChallenge env conf.UserID conf.Fingerprint conf.UseTor w).1.1.Challenge
      conf.PrivateKey).2 ≠ none) :
    GetBTC env conf w =
      (({}, (GetChallenge env conf.UserID conf.Fingerprint conf.UseTor w).1.2),
        (GetChallenge env conf.UserID conf.Fingerprint conf.UseTor w).2) := by
  unfold GetBTC
  rcases hg : GetChallenge env conf.UserID conf.Fingerprint conf.UseTor w with ⟨⟨ch, cerr⟩, w1⟩
  rw [hg] at h
  rcases hd : DecryptChallenge env ch.Challenge conf.PrivateKey with ⟨plain, derr⟩
  cases derr with
  | none => simp [hd] at h
  | some d => simp [hd]

/-- An error of `EncryptData` ends `NewCrypt` before anything else is done. -/
theorem NewCrypt_of_encrypt_error (env : Env) (data desc : String) (dur miss : Int)
    (conf : CoreConf) (w : World) (e : GoError)
    (h : (EncryptData env data conf.PublicKey).2 = some e) :
    NewCrypt env data desc dur miss false conf w = (({}, some e), w) := by
  unfold NewCrypt
  rcases he : EncryptData env data conf.PublicKey with ⟨c, err⟩
  rw [he] at h
  simp only at h
  subst h
  simp

/-- When its data is ready and the challenge does not decrypt, `NewCrypt`
returns the zero response and the error of `GetChallenge`, and its effects are
those of `GetChallenge`. -/
theorem NewCrypt_of_decrypt_error (env : Env) (data desc : String) (dur miss : Int)
    (isEnc : Bool) (conf : CoreConf) (w : World)
    (henc : isEnc = false → (EncryptData env data conf.PublicKey).2 = none)
    (h : (DecryptChallenge env
      (GetChallenge env conf.UserID conf.Fingerprint conf.UseTor w).1.1.Challenge
      conf.PrivateKey).2 ≠ none) :
    NewCrypt env data desc dur miss isEnc conf w =
      (({}, (GetChallenge env conf.UserID conf.Fingerprint conf.UseTor w).1.2),
        (GetChallenge env conf.UserID conf.Fingerprint conf.UseTor w).2) := by
  unfold NewCrypt
  rcases hg : GetChallenge env conf.UserID conf.Fingerprint conf.UseTor w with ⟨⟨ch, cerr⟩, w1⟩
  rw [hg] at h
  rcases hd : DecryptChallenge env ch.Challenge conf.PrivateKey with ⟨plain, derr⟩
  rw [hd] at h
  cases derr with
  | none => simp at h
  | some d =>
    cases isEnc with
    | true => simp [hd]
    | false =>
      rcases he : EncryptData env data conf.PublicKey with ⟨c, err⟩
      have := henc rfl
      rw [he] at this
      simp only at this
      subst this
      simp [hd]

/-- When `Checkin` hands a request to `client.Do` after the challenge was
fetched, the challenge decrypted, the request is the POST of the marshalled
`ClientCheckinRequest`, and the result is what the shared tail makes of the
answer. -/
theorem Checkin_submitted (env : Env) (conf : CoreConf) (cryptID : String) (w : World)
    (req : Request)
    (h : (Checkin env conf cryptID w).2.sent =
      (GetChallenge env conf.UserID conf.Fingerprint conf.UseTor w).2.sent ++ [req]) :
    ∃ plain buf,
      DecryptChallenge env
        (GetChallenge env conf.UserID conf.Fingerprint conf.UseTor w).1.1.Challenge
        conf.PrivateKey = (plain, none) ∧
      env.marshalCheckinRequest
        { UserID := conf.UserID, Challenge := plain,
          ChallengeID :=
            (GetChallenge env conf.UserID conf.Fingerprint conf.UseTor w).1.1.ChallengeID } =
        .ok buf ∧
      req = ⟨"POST", RIPACRYPTURL ++ "crypt/" ++ cryptID ++ "/", some buf, stdHeaders,
        conf.UseTor⟩ ∧
      (Checkin env conf cryptID w).1 =
        answerOf env.unmarshalCryptResponse {}
          (env.clientDo (GetChallenge env conf.UserID conf.Fingerprint conf.UseTor w).2.sent req) := by
  unfold Checkin at h ⊢
  rcases hg : GetChallenge env conf.UserID conf.Fingerprint conf.UseTor w with ⟨⟨ch, cerr⟩, w1⟩
  rw [hg] at h
  rcases hd : DecryptChallenge env ch.Challenge conf.PrivateKey with ⟨plain, derr⟩
  simp only [hd, doRequest] at h ⊢
  cases derr with
  | some d => simp at h
  | none =>
    simp only at h ⊢
    cases hm : env.marshalCheckinRequest
        { UserID := conf.UserID, Challenge := plain, ChallengeID := ch.ChallengeID } with
    | error e => simp [hm] at h
    | ok buf =>
      simp only [hm] at h ⊢
      cases hr : env.newRequest "POST" (RIPACRYPTURL ++ "crypt/" ++ cryptID ++ "/") with
      | some e => simp [hr] at h
      | none =>
        simp only [hr, World.send, List.append_cancel_left_eq, List.cons.injEq, and_true] at h ⊢
        subst h
        exact ⟨plain, buf, rfl, hm, rfl, rfl⟩

/-- When `GetBTC` hands a request to `client.Do` after the challenge was
fetched, the challenge decrypted, the request is the POST of the marshalled
`ClientBTCRequest`, and the result is what the shared tail makes of the
answer. -/
theorem GetBTC_submitted (env : Env) (conf : CoreConf) (w : World) (req : Request)
    (h : (GetBTC env conf w).2.sent =
      (GetChallenge env conf.UserID conf.Fingerprint conf.UseTor w).2.sent ++ [req]) :
    ∃ plain buf,
      DecryptChallenge env
        (GetChallenge env conf.UserID conf.Fingerprint conf.UseTor w).1.1.Challenge
        conf.PrivateKey = (plain, none) ∧
      env.marshalBTCRequest
        { UserID := conf.UserID, Challenge := plain,
          ChallengeID :=
            (GetChallenge env conf.UserID conf.Fingerprint conf.UseTor w).1.1.ChallengeID } =
        .ok buf ∧
      req = ⟨"POST", (if conf.UseTor = true then env.HSURL else RIPACRYPTURL) ++ "newbtc/",
        some buf, stdHeaders, conf.UseTor⟩ ∧
      (GetBTC env conf w).1 =
        answerOf env.unmarshalRegisterResponse {}
          (env.clientDo (GetChallenge env conf.UserID conf.Fingerprint conf.UseTor w).2.sent req) := by
  unfold GetBTC at h ⊢
  rcases hg : GetChallenge env conf.UserID conf.Fingerprint conf.UseTor w with ⟨⟨ch, cerr⟩, w1⟩
  rw [hg] at h
  rcases hd : DecryptChallenge env ch.Challenge conf.PrivateKey with ⟨plain, derr⟩
  simp only [hd, doRequest] at h ⊢
  cases derr with
  | some d => simp at h
  | none =>
    simp only at h ⊢
    cases hm : env.marshalBTCRequest
        { UserID := conf.UserID, Challenge := plain, ChallengeID := ch.ChallengeID } with
    | error e => simp [hm] at h
    | ok buf =>
      simp only [hm] at h ⊢
      cases hr : env.newRequest "POST"
          ((if conf.UseTor = true then env.HSURL else RIPACRYPTURL) ++ "newbtc/") with
      | some e => simp [hr] at h
      | none =>
        simp only [hr, World.send, List.append_cancel_left_eq, List.cons.injEq, and_true] at h ⊢
        subst h
        exact ⟨plain, buf, rfl, hm, rfl, rfl⟩

/-- When `NewCrypt` hands a request to `client.Do` after the challenge was
fetched, its data was ready (encrypted by `EncryptData`, or taken as it is
when `IsEncrypted` is set), the challenge decrypted, the request is the POST of
the marshalled `ClientCryptRequest`, and the result is what the shared tail
makes of the answer. -/
theorem NewCrypt_submitted (env : Env) (data desc : String) (dur miss : Int) (isEnc : Bool)
    (conf : CoreConf) (w : World) (req : Request)
    (h : (NewCrypt env data desc dur miss isEnc conf w).2.sent =
      (GetChallenge env conf.UserID conf.Fingerprint conf.UseTor w).2.sent ++ [req]) :
    ∃ content plain buf,
      (if isEnc = false then EncryptData env data conf.PublicKey else (data, none)) =
        (content, none) ∧
      DecryptChallenge env
        (GetChallenge env conf.UserID conf.Fingerprint conf.UseTor w).1.1.Challenge
        conf.PrivateKey = (plain, none) ∧
      env.marshalCryptRequest
        { UserID := conf.UserID, CryptContent := content, Challenge := plain,
          ChallengeID :=
            (GetChallenge env conf.UserID conf.Fingerprint conf.UseTor w).1.1.ChallengeID,
          Description := desc, CheckInDuration := dur, MissCount := miss } = .ok buf ∧
      req = ⟨"POST", RIPACRYPTURL ++ "crypt/new/", some buf, stdHeaders, conf.UseTor⟩ ∧
      (NewCrypt env data desc dur miss isEnc conf w).1 =
        answerOf env.unmarshalCryptResponse {}
          (env.clientDo (GetChallenge env conf.UserID conf.Fingerprint conf.UseTor w).2.sent req) := by
  have hlen := GetChallenge_sent_length env conf.UserID conf.Fingerprint conf.UseTor w
  unfold NewCrypt at h ⊢
  rcases hs : (if isEnc = false then EncryptData env data conf.PublicKey else (data, none))
    with ⟨content, eerr⟩
  rcases hg : GetChallenge env conf.UserID conf.Fingerprint conf.UseTor w with ⟨⟨ch, cerr⟩, w1⟩
  rw [hg] at hlen
  simp only at hlen
  simp only [hs, hg] at h ⊢
  cases eerr with
  | some e =>
    simp only at h
    have := congrArg List.length h
    simp at this
    omega
  | none =>
    rcases hd : DecryptChallenge env ch.Challenge conf.PrivateKey with ⟨plain, derr⟩
    simp only [hd, doRequest] at h ⊢
    cases derr with
    | some d => simp at h
    | none =>
      simp only at h ⊢
      cases hm : env.marshalCryptRequest
          { UserID := conf.UserID, CryptContent := content, Challenge := plain,
            ChallengeID := ch.ChallengeID, Description := desc, CheckInDuration := dur,
            MissCount := miss } with
      | error e => simp [hm] at h
      | ok buf =>
        simp only [hm] at h ⊢
        cases hr : env.newRequest "POST" (RIPACRYPTURL ++ "crypt/new/") with
        | some e => simp [hr] at h
        | none =>
          simp only [hr, World.send, List.append_cancel_left_eq, List.cons.injEq, and_true] at h ⊢
          subst h
          exact ⟨content, plain, buf, rfl, rfl, hm, rfl, rfl⟩

/-! ### The write operations -/

/-- C3. `NewCrypt` and the encryption of its data.  With `IsEncrypted` false, a
submission request carries as `crypt_content` the result of
`EncryptData(data, conf.PublicKey)`, which returned no error, and an error of
`EncryptData` is returned with the effects untouched, so before the challenge
request and the submission request.  With `IsEncrypted` true, a submission
request carries `data` itself as `crypt_content`, and the result depends
neither on the encryption functions of the library nor on `conf.PublicKey`:
`EncryptData` has no part in it. -/
theorem NewCrypt_content (env : Env) (data desc : String) (dur miss : Int) (conf : CoreConf)
    (w : World) :
    (∀ req, (NewCrypt env data desc dur miss false conf w).2.sent =
        (challengeOf env conf w).2.sent ++ [req] →
      (EncryptData env data conf.PublicKey).2 = none ∧
      ∃ buf, env.marshalCryptRequest
          { UserID := conf.UserID, CryptContent := (EncryptData env data conf.PublicKey).1,
            Challenge := (decryptedOf env conf w).1,
            ChallengeID := (challengeOf env conf w).1.1.ChallengeID,
            Description := desc, CheckInDuration := dur, MissCount := miss } = .ok buf ∧
        req.body = some buf) ∧
    (∀ e, (EncryptData env data conf.PublicKey).2 = some e →
      NewCrypt env data desc dur miss false conf w = (({}, some e), w)) ∧
    (∀ req, (NewCrypt env data desc dur miss true conf w).2.sent =
        (challengeOf env conf w).2.sent ++ [req] →
      ∃ buf, env.marshalCryptRequest
          { UserID := conf.UserID, CryptContent := data,
            Challenge := (decryptedOf env conf w).1,
            ChallengeID := (challengeOf env conf w).1.1.ChallengeID,
            Description := desc, CheckInDuration := dur, MissCount := miss } = .ok buf ∧
        req.body = some buf) ∧
    (∀ (encrypt1 : List env.Entity → Except String env.Writer)
        (write1 : env.Writer → String → Except String env.Writer)
        (close1 : env.Writer → Except String String) (encode1 : String → String)
        (publicKey1 : String),
      NewCrypt { env with encrypt := encrypt1, write := write1, close := close1,
                          encodeToString := encode1 }
          data desc dur miss true { conf with PublicKey := publicKey1 } w =
        NewCrypt env data desc dur miss true conf w) := by
  refine ⟨?_, ?_, ?_, ?_⟩
  · intro req h
    obtain ⟨content, plain, buf, hc, hp, hm, hreq, _⟩ :=
      NewCrypt_submitted env data desc dur miss false conf w req h
    simp only [if_true] at hc
    simp only [challengeOf, decryptedOf, hc, hp]
    exact ⟨trivial, buf, hm, by rw [hreq]⟩
  · intro e he
    exact NewCrypt_of_encrypt_error env data desc dur miss conf w e he
  · intro req h
    obtain ⟨content, plain, buf, hc, hp, hm, hreq, _⟩ :=
      NewCrypt_submitted env data desc dur miss true conf w req h
    simp only [Bool.true_eq_false, if_false, Prod.mk.injEq, and_true] at hc
    subst hc
    simp only [challengeOf, decryptedOf, hp]
    exact ⟨buf, hm, by rw [hreq]⟩
  · intro encrypt1 write1 close1 encode1 publicKey1
    have hD : ∀ c p, DecryptChallenge
        { env with encrypt := encrypt1, write := write1, close := close1,
                   encodeToString := encode1 } c p = DecryptChallenge env c p := by
      intro c p
      unfold DecryptChallenge
      dsimp only
      cases env.readMessage (env.decodeString c).1 (env.readArmoredKeyRing p).1 <;> rfl
    have hG : ∀ u f t, GetChallenge
        { env with encrypt := encrypt1, write := write1, close := close1,
                   encodeToString := encode1 } u f t w = GetChallenge env u f t w :=
      fun _ _ _ => rfl
    unfold NewCrypt
    simp only [Bool.true_eq_false, if_false, hD, hG]
    rfl

/-- C3, witness: in the stand-in, `NewCrypt` on the plaintext `secret` submits
the base64 text that `EncryptData` returns for it. -/
theorem NewCrypt_content_witness :
    (NewCrypt demoEnv "secret" "d" 86400 3 false demoConf {}).2.sent =
        (challengeOf demoEnv demoConf {}).2.sent ++ [demoNewCryptRequest] ∧
      EncryptData demoEnv "secret" "PUB:K7" = ("wQJLN9JzZWNyZXQ=", none) ∧
      (EncryptData demoEnv "secret" demoConf.PublicKey).2 = none :=
  ⟨by decide, by decide,
    ((NewCrypt_content demoEnv "secret" "d" 86400 3 demoConf {}).1 demoNewCryptRequest
      (by decide)).1⟩

/-- C4. When `DecryptChallenge` fails on the fetched challenge, each write
operation ends with the effects `GetChallenge` left (`NewCrypt` possibly with
none at all, when `EncryptData` failed first), and `GetChallenge` hands to
`client.Do` at most the challenge request: no submission request is built or
sent. -/
theorem decrypt_failure_stops_submission (env : Env) (conf : CoreConf) (cryptID data desc : String)
    (dur miss : Int) (isEnc : Bool) (w : World)
    (h : (decryptedOf env conf w).2 ≠ none) :
    (Checkin env conf cryptID w).2 = (challengeOf env conf w).2 ∧
    (GetBTC env conf w).2 = (challengeOf env conf w).2 ∧
    ((NewCrypt env data desc dur miss isEnc conf w).2 = (challengeOf env conf w).2 ∨
      (NewCrypt env data desc dur miss isEnc conf w).2 = w) ∧
    ((challengeOf env conf w).2 = w ∨
      ∃ buf, env.marshalChallengeRequest
          { UserID := conf.UserID, Fingerprint := conf.Fingerprint } = .ok buf ∧
        (challengeOf env conf w).2 =
          w.send ⟨"POST", RIPACRYPTURL ++ "challenge/", some buf, stdHeaders, conf.UseTor⟩) := by
  refine ⟨?_, ?_, ?_, GetChallenge_world env conf.UserID conf.Fingerprint conf.UseTor w⟩
  · rw [Checkin_of_decrypt_error env conf cryptID w h]
  · rw [GetBTC_of_decrypt_error env conf w h]
  · by_cases henc : isEnc = false → (EncryptData env data conf.PublicKey).2 = none
    · left
      rw [NewCrypt_of_decrypt_error env data desc dur miss isEnc conf w henc h]
    · right
      rw [Classical.not_imp] at henc
      obtain ⟨h1, h2⟩ := henc
      subst h1
      obtain ⟨e, he⟩ := Option.ne_none_iff_exists'.mp h2
      rw [NewCrypt_of_encrypt_error env data desc dur miss conf w e he]

/-- C4, witness: the account holds the private key `K9`, the challenge is
addressed to `K7`; only the challenge request is made. -/
theorem decrypt_failure_stops_submission_witness :
    (decryptedOf demoEnv { demoConf with PrivateKey := "SEC:K9" } {}).2 ≠ none ∧
      (Checkin demoEnv { demoConf with PrivateKey := "SEC:K9" } "c1" {}).2 =
        (challengeOf demoEnv { demoConf with PrivateKey := "SEC:K9" } {}).2 ∧
      (challengeOf demoEnv { demoConf with PrivateKey := "SEC:K9" } {}).2.sent.length = 1 ∧
      (Checkin demoEnv demoConf "c1" {}).2.sent.length = 2 :=
  ⟨by decide,
    (decrypt_failure_stops_submission demoEnv { demoConf with PrivateKey := "SEC:K9" } "c1" "" ""
      0 0 true {} (by decide)).1,
    by decide, by decide⟩

/-- C5, the code at a failing input: the challenge of user 7 is fetched without
error, it does not decrypt with the private key `K9`, and each of the three
write operations returns the zero response with a nil error. -/
theorem decrypt_error_is_dropped :
    (challengeOf demoEnv { demoConf with PrivateKey := "SEC:K9" } {}).1.2 = none ∧
      decryptedOf demoEnv { demoConf with PrivateKey := "SEC:K9" } {} =
        ("", some (.message "openpgp: incorrect key")) ∧
      (Checkin demoEnv { demoConf with PrivateKey := "SEC:K9" } "c1" {}).1 = ({}, none) ∧
      (NewCrypt demoEnv "secret" "d" 86400 3 false { demoConf with PrivateKey := "SEC:K9" } {}).1 =
        ({}, none) ∧
      (GetBTC demoEnv { demoConf with PrivateKey := "SEC:K9" } {}).1 = ({}, none) := by
  decide

/-- Under the contract for a message of no bytes, the empty challenge does not
decrypt, whatever the private key. -/
theorem DecryptChallenge_empty (env : Env) (hempty : env.EmptyMessageRejected)
    (privatekey : String) : (DecryptChallenge env "" privatekey).2 ≠ none := by
  obtain ⟨hdec, hmsg⟩ := hempty
  obtain ⟨err, herr⟩ := hmsg (env.readArmoredKeyRing privatekey).1
  simp [DecryptChallenge, hdec, herr]

/-- C6. When `GetChallenge` returns an error, each write operation returns the
zero response and that error, with the effects `GetChallenge` left, which hold
at most the challenge request: no submission request is sent, whatever the
private key of the config.  The write operations do not test the error; they
rely on the empty challenge of the zero response not decrypting, which is the
contract `EmptyMessageRejected`.  For `NewCrypt` the data must be ready first
(`IsEncrypted` set, or `EncryptData` without error). -/
theorem challenge_error_aborts (env : Env) (conf : CoreConf) (cryptID data desc : String)
    (dur miss : Int) (isEnc : Bool) (w : World) (e : GoError)
    (hempty : env.EmptyMessageRejected)
    (hch : (challengeOf env conf w).1.2 = some e)
    (henc : isEnc = false → (EncryptData env data conf.PublicKey).2 = none) :
    Checkin env conf cryptID w = (({}, some e), (challengeOf env conf w).2) ∧
    GetBTC env conf w = (({}, some e), (challengeOf env conf w).2) ∧
    NewCrypt env data desc dur miss isEnc conf w = (({}, some e), (challengeOf env conf w).2) ∧
    ((challengeOf env conf w).2 = w ∨
      ∃ buf, env.marshalChallengeRequest
          { UserID := conf.UserID, Fingerprint := conf.Fingerprint } = .ok buf ∧
        (challengeOf env conf w).2 =
          w.send ⟨"POST", RIPACRYPTURL ++ "challenge/", some buf, stdHeaders, conf.UseTor⟩) := by
  have hzero := GetChallenge_error_zero env conf.UserID conf.Fingerprint conf.UseTor w e hch
  have hdec : (decryptedOf env conf w).2 ≠ none := by
    simp only [decryptedOf, challengeOf, hzero]
    exact DecryptChallenge_empty env hempty conf.PrivateKey
  refine ⟨?_, ?_, ?_, GetChallenge_world env conf.UserID conf.Fingerprint conf.UseTor w⟩
  · rw [Checkin_of_decrypt_error env conf cryptID w hdec, hch]
  · rw [GetBTC_of_decrypt_error env conf w hdec, hch]
  · rw [NewCrypt_of_decrypt_error env data desc dur miss isEnc conf w henc hdec, hch]

/-- The stand-in meets the contract for a message of no bytes. -/
theorem demoEnv_emptyMessageRejected : demoEnv.EmptyMessageRejected :=
  ⟨by decide, fun _ => ⟨"EOF", rfl⟩⟩

/-- C6, witness: the account asks for Tor and the proxy is not running; the
transport error of `GetChallenge` comes back from `Checkin`, and only the
challenge request was handed to `client.Do`. -/
theorem challenge_error_aborts_witness :
    demoEnv.EmptyMessageRejected ∧
      (challengeOf demoEnv { demoConf with UseTor := true } {}).1.2 =
        some (.transport "socks connect tcp localhost:9050: connection refused") ∧
      Checkin demoEnv { demoConf with UseTor := true } "c1" {} =
        (({}, some (.transport "socks connect tcp localhost:9050: connection refused")),
          (challengeOf demoEnv { demoConf with UseTor := true } {}).2) ∧
      (challengeOf demoEnv { demoConf with UseTor := true } {}).2.sent.length = 1 :=
  ⟨demoEnv_emptyMessageRejected, by decide,
    (challenge_error_aborts demoEnv { demoConf with UseTor := true } "c1" "" "" 0 0 true {}
      (.transport "socks connect tcp localhost:9050: connection refused")
      demoEnv_emptyMessageRejected (by decide) (by decide)).1,
    by decide⟩

/-- C7 as stated fails: the check-in of user 7 on the crypt `nope`, which the
stand-in server does not hold, is answered with a well-formed body whose
success flag is false; `Checkin` returns a nil error, with the flag and the
message of the server in the response. -/
theorem failure_flag_nil_error :
    demoEnv.clientDo (challengeOf demoEnv demoConf {}).2.sent
        ⟨"POST", "https://ripacrypt.download/1/crypt/nope/",
          some (jsonObject "\"user_id\":7,\"challenge\":\"nonce-42\",\"challenge_id\":42"),
          stdHeaders, false⟩ = .ok demoNotFoundBody ∧
      (Checkin demoEnv demoConf "nope" {}).1 =
        ({ StatusCode := 404, Success := false, Message := "crypt not found", Version := 1 },
          none) ∧
      ¬ (Checkin demoEnv demoConf "nope" {}).1.2 ≠ none := by
  decide

/-- C7, amended. When the body that answers the submission request of `Checkin`
or of `NewCrypt` parses to a response whose success flag is false, the
operation returns that response with a nil error: the flag is false and the
message is the status message of the server. -/
theorem failure_flag_is_returned (env : Env) (conf : CoreConf) (cryptID data desc : String)
    (dur miss : Int) (isEnc : Bool) (w : World) (req : Request) (body : String)
    (r : NewCryptAPIResponse)
    (hbody : env.clientDo (challengeOf env conf w).2.sent req = .ok body)
    (hparse : env.unmarshalCryptResponse body = .ok r)
    (hflag : r.Success = false) :
    ((Checkin env conf cryptID w).2.sent = (challengeOf env conf w).2.sent ++ [req] →
      (Checkin env conf cryptID w).1 = (r, none) ∧
      (Checkin env conf cryptID w).1.1.Success = false ∧
      (Checkin env conf cryptID w).1.1.Message = r.Message) ∧
    ((NewCrypt env data desc dur miss isEnc conf w).2.sent =
        (challengeOf env conf w).2.sent ++ [req] →
      (NewCrypt env data desc dur miss isEnc conf w).1 = (r, none) ∧
      (NewCrypt env data desc dur miss isEnc conf w).1.1.Success = false ∧
      (NewCrypt env data desc dur miss isEnc conf w).1.1.Message = r.Message) := by
  constructor
  · intro h
    obtain ⟨_, _, _, _, _, hres⟩ := Checkin_submitted env conf cryptID w req h
    simp only [challengeOf] at hbody
    rw [hres, hbody]
    simp [answerOf, hparse, hflag]
  · intro h
    obtain ⟨_, _, _, _, _, _, _, hres⟩ := NewCrypt_submitted env data desc dur miss isEnc conf w req h
    simp only [challengeOf] at hbody
    rw [hres, hbody]
    simp [answerOf, hparse, hflag]

/-- C7, witness: the check-in on the crypt `nope`. -/
theorem failure_flag_is_returned_witness :
    (Checkin demoEnv demoConf "nope" {}).2.sent =
        (challengeOf demoEnv demoConf {}).2.sent ++
          [⟨"POST", "https://ripacrypt.download/1/crypt/nope/",
            some (jsonObject "\"user_id\":7,\"challenge\":\"nonce-42\",\"challenge_id\":42"),
            stdHeaders, false⟩] ∧
      (Checkin demoEnv demoConf "nope" {}).1 =
        ({ StatusCode := 404, Success := false, Message := "crypt not found", Version := 1 },
          none) :=
  ⟨by decide,
    ((failure_flag_is_returned demoEnv demoConf "nope" "" "" 0 0 true {}
      ⟨"POST", "https://ripacrypt.download/1/crypt/nope/",
        some (jsonObject "\"user_id\":7,\"challenge\":\"nonce-42\",\"challenge_id\":42"),
        stdHeaders, false⟩
      demoNotFoundBody
      { StatusCode := 404, Success := false, Message := "crypt not found", Version := 1 }
      (by decide) (by decide) (by decide)).1 (by decide)).1⟩

/-- `DecryptChallenge` does report the error of `ReadMessage`. -/
theorem DecryptChallenge_message_error (env : Env) (challenge privatekey err : String)
    (h : env.readMessage (env.decodeString challenge).1
      (env.readArmoredKeyRing privatekey).1 = .error err) :
    DecryptChallenge env challenge privatekey = ("", some (.message err)) := by
  simp [DecryptChallenge, h]

/-- C8, the code at two failing inputs.  The challenge `ywhiAAAAAABoaQ==` is the
base64 text of a literal-data packet with the body `hi`, which is not
encrypted.  With a private key that is no armoured key ring,
`ReadArmoredKeyRing` fails and `DecryptChallenge` returns `hi` with a nil
error.  With a `!` appended, `DecodeString` fails, after decoding the whole
packet, and `DecryptChallenge` again returns `hi` with a nil error. -/
theorem DecryptChallenge_drops_errors :
    (demoEnv.readArmoredKeyRing "not a key").2 ≠ none ∧
      DecryptChallenge demoEnv "ywhiAAAAAABoaQ==" "not a key" = ("hi", none) ∧
      (demoEnv.decodeString "ywhiAAAAAABoaQ==!").2 ≠ none ∧
      DecryptChallenge demoEnv "ywhiAAAAAABoaQ==!" "SEC:K7" = ("hi", none) := by
  decide

/-- What the shared tail returns for a body that does not parse, and for a
transport that fails. -/
theorem answerOf_cases {α : Type} (parse : String → Except String α) (zero : α)
    (o : Except String String) :
    (∀ body e, o = .ok body → parse body = .error e → answerOf parse zero o = (zero, some (.json e))) ∧
    (∀ t, o = .error t → answerOf parse zero o = (zero, some (.transport t))) := by
  constructor
  · intro body e ho hp
    subst ho
    simp [answerOf, hp]
  · intro t ho
    subst ho
    rfl

/-- C9. For each of the six API calls, once its request has been handed to
`client.Do`: if the transport succeeds and `json.Unmarshal` rejects the body,
the call returns the zero response and the error of `json.Unmarshal`; if the
transport fails, it returns the zero response and the error of `client.Do`.
The two errors are different values: the first comes from `encoding/json`,
the second from `net/http`. -/
theorem malformed_response_error (env : Env) (conf : CoreConf) (u : Nat)
    (fp pk cryptID data desc : String) (tor isEnc : Bool) (dur miss : Int) (w : World)
    (req : Request) :
    ((GetChallenge env u fp tor w).2.sent = w.sent ++ [req] →
      (∀ body e, env.clientDo w.sent req = .ok body →
        env.unmarshalChallengeResponse body = .error e →
        (GetChallenge env u fp tor w).1 = ({}, some (.json e))) ∧
      (∀ t, env.clientDo w.sent req = .error t →
        (GetChallenge env u fp tor w).1 = ({}, some (.transport t)))) ∧
    ((RIPACryptRegister env pk tor w).2.sent = w.sent ++ [req] →
      (∀ body e, env.clientDo w.sent req = .ok body →
        env.unmarshalRegisterResponse body = .error e →
        (RIPACryptRegister env pk tor w).1 = ({}, some (.json e))) ∧
      (∀ t, env.clientDo w.sent req = .error t →
        (RIPACryptRegister env pk tor w).1 = ({}, some (.transport t)))) ∧
    ((GetCrypt env conf cryptID w).2.sent = w.sent ++ [req] →
      (∀ body e, env.clientDo w.sent req = .ok body →
        env.unmarshalCryptResponse body = .error e →
        (GetCrypt env conf cryptID w).1 = ({}, some (.json e))) ∧
      (∀ t, env.clientDo w.sent req = .error t →
        (GetCrypt env conf cryptID w).1 = ({}, some (.transport t)))) ∧
    ((Checkin env conf cryptID w).2.sent = (challengeOf env conf w).2.sent ++ [req] →
      (∀ body e, env.clientDo (challengeOf env conf w).2.sent req = .ok body →
        env.unmarshalCryptResponse body = .error e →
        (Checkin env conf cryptID w).1 = ({}, some (.json e))) ∧
      (∀ t, env.clientDo (challengeOf env conf w).2.sent req = .error t →
        (Checkin env conf cryptID w).1 = ({}, some (.transport t)))) ∧
    ((NewCrypt env data desc dur miss isEnc conf w).2.sent =
        (challengeOf env conf w).2.sent ++ [req] →
      (∀ body e, env.clientDo (challengeOf env conf w).2.sent req = .ok body →
        env.unmarshalCryptResponse body = .error e →
        (NewCrypt env data desc dur miss isEnc conf w).1 = ({}, some (.json e))) ∧
      (∀ t, env.clientDo (challengeOf env conf w).2.sent req = .error t →
        (NewCrypt env data desc dur miss isEnc conf w).1 = ({}, some (.transport t)))) ∧
    ((GetBTC env conf w).2.sent = (challengeOf env conf w).2.sent ++ [req] →
      (∀ body e, env.clientDo (challengeOf env conf w).2.sent req = .ok body →
        env.unmarshalRegisterResponse body = .error e →
        (GetBTC env conf w).1 = ({}, some (.json e))) ∧
      (∀ t, env.clientDo (challengeOf env conf w).2.sent req = .error t →
        (GetBTC env conf w).1 = ({}, some (.transport t)))) ∧
    (∀ e t : String, GoError.json e ≠ GoError.transport t) := by
  refine ⟨?_, ?_, ?_, ?_, ?_, ?_, ?_⟩
  · intro h
    obtain ⟨_, _, _, hres⟩ := GetChallenge_submitted env u fp tor w req h
    rw [hres]
    exact answerOf_cases _ _ _
  · intro h
    obtain ⟨_, _, _, hres⟩ := RIPACryptRegister_submitted env pk tor w req h
    rw [hres]
    exact answerOf_cases _ _ _
  · intro h
    obtain ⟨_, hres⟩ := GetCrypt_submitted env conf cryptID w req h
    rw [hres]
    exact answerOf_cases _ _ _
  · intro h
    obtain ⟨_, _, _, _, _, hres⟩ := Checkin_submitted env conf cryptID w req h
    rw [hres]
    exact answerOf_cases _ _ _
  · intro h
    obtain ⟨_, _, _, _, _, _, _, hres⟩ :=
      NewCrypt_submitted env data desc dur miss isEnc conf w req h
    rw [hres]
    exact answerOf_cases _ _ _
  · intro h
    obtain ⟨_, _, _, _, _, hres⟩ := GetBTC_submitted env conf w req h
    rw [hres]
    exact answerOf_cases _ _ _
  · intro e t h
    cases h

/-- C9, witness: the path `crypt/html/` of the stand-in server answers with a
page that is not JSON; `GetCrypt` returns the zero response and the error of
`json.Unmarshal`. -/
theorem malformed_response_error_witness :
    (GetCrypt demoEnv demoConf "html" {}).2.sent =
        [⟨"GET", "https://ripacrypt.download/1/crypt/html/", none, stdHeaders, false⟩] ∧
      demoEnv.clientDo []
          ⟨"GET", "https://ripacrypt.download/1/crypt/html/", none, stdHeaders, false⟩ =
        .ok "<html>502 Bad Gateway</html>" ∧
      demoEnv.unmarshalCryptResponse "<html>502 Bad Gateway</html>" =
        .error "invalid character looking for beginning of value" ∧
      (GetCrypt demoEnv demoConf "html" {}).1 =
        ({}, some (.json "invalid character looking for beginning of value")) :=
  ⟨by decide, by decide, by decide,
    ((malformed_response_error demoEnv demoConf 0 "" "" "html" "" "" false false 0 0 {}
      ⟨"GET", "https://ripacrypt.download/1/crypt/html/", none, stdHeaders, false⟩).2.2.1
      (by decide)).1 "<html>502 Bad Gateway</html>"
      "invalid character looking for beginning of value" (by decide) (by decide)⟩

/-- C10. The proof of possession.  A challenge request of a write operation is
the marshalled `ClientChallengeRequest` of `conf.UserID` and
`conf.Fingerprint`.  A submission request of `Checkin`, `NewCrypt` or `GetBTC`
is made only when `DecryptChallenge` returned no error on the challenge of
that response, and its body is the marshalled request whose `user_id` is
`conf.UserID`, whose `challenge` is the plaintext `DecryptChallenge` returned
and whose `challenge_id` is the `ChallengeID` of the same response. -/
theorem proof_of_possession (env : Env) (conf : CoreConf) (cryptID data desc : String)
    (dur miss : Int) (isEnc : Bool) (w : World) (req : Request) :
    ((challengeOf env conf w).2.sent = w.sent ++ [req] →
      ∃ buf, env.marshalChallengeRequest
          { UserID := conf.UserID, Fingerprint := conf.Fingerprint } = .ok buf ∧
        req = ⟨"POST", RIPACRYPTURL ++ "challenge/", some buf, stdHeaders, conf.UseTor⟩) ∧
    ((Checkin env conf cryptID w).2.sent = (challengeOf env conf w).2.sent ++ [req] →
      (decryptedOf env conf w).2 = none ∧
      ∃ buf, env.marshalCheckinRequest
          { UserID := conf.UserID, Challenge := (decryptedOf env conf w).1,
            ChallengeID := (challengeOf env conf w).1.1.ChallengeID } = .ok buf ∧
        req.body = some buf) ∧
    ((NewCrypt env data desc dur miss isEnc conf w).2.sent =
        (challengeOf env conf w).2.sent ++ [req] →
      (decryptedOf env conf w).2 = none ∧
      ∃ content buf, env.marshalCryptRequest
          { UserID := conf.UserID, CryptContent := content,
            Challenge := (decryptedOf env conf w).1,
            ChallengeID := (challengeOf env conf w).1.1.ChallengeID,
            Description := desc, CheckInDuration := dur, MissCount := miss } = .ok buf ∧
        req.body = some buf) ∧
    ((GetBTC env conf w).2.sent = (challengeOf env conf w).2.sent ++ [req] →
      (decryptedOf env conf w).2 = none ∧
      ∃ buf, env.marshalBTCRequest
          { UserID := conf.UserID, Challenge := (decryptedOf env conf w).1,
            ChallengeID := (challengeOf env conf w).1.1.ChallengeID } = .ok buf ∧
        req.body = some buf) := by
  refine ⟨?_, ?_, ?_, ?_⟩
  · intro h
    obtain ⟨buf, hm, hreq, _⟩ :=
      GetChallenge_submitted env conf.UserID conf.Fingerprint conf.UseTor w req h
    exact ⟨buf, hm, hreq⟩
  · intro h
    obtain ⟨plain, buf, hp, hm, hreq, _⟩ := Checkin_submitted env conf cryptID w req h
    simp only [challengeOf, decryptedOf, hp]
    exact ⟨trivial, buf, hm, by rw [hreq]⟩
  · intro h
    obtain ⟨content, plain, buf, _, hp, hm, hreq, _⟩ :=
      NewCrypt_submitted env data desc dur miss isEnc conf w req h
    simp only [challengeOf, decryptedOf, hp]
    exact ⟨trivial, content, buf, hm, by rw [hreq]⟩
  · intro h
    obtain ⟨plain, buf, hp, hm, hreq, _⟩ := GetBTC_submitted env conf w req h
    simp only [challengeOf, decryptedOf, hp]
    exact ⟨trivial, buf, hm, by rw [hreq]⟩

/-- C10, witness: the check-in of user 7 on the crypt `c1` submits the nonce
`nonce-42`, which is what the challenge decrypts to, with the challenge id 42
of the response. -/
theorem proof_of_possession_witness :
    (Checkin demoEnv demoConf "c1" {}).2.sent =
        (challengeOf demoEnv demoConf {}).2.sent ++
          [⟨"POST", "https://ripacrypt.download/1/crypt/c1/",
            some (jsonObject "\"user_id\":7,\"challenge\":\"nonce-42\",\"challenge_id\":42"),
            stdHeaders, false⟩] ∧
      decryptedOf demoEnv demoConf {} = ("nonce-42", none) ∧
      (challengeOf demoEnv demoConf {}).1.1.ChallengeID = 42 ∧
      (decryptedOf demoEnv demoConf {}).2 = none :=
  ⟨by decide, by decide, by decide,
    ((proof_of_possession demoEnv demoConf "c1" "" "" 0 0 true {}
      ⟨"POST", "https://ripacrypt.download/1/crypt/c1/",
        some (jsonObject "\"user_id\":7,\"challenge\":\"nonce-42\",\"challenge_id\":42"),
        stdHeaders, false⟩).2.1 (by decide)).1⟩

/-! ### Retrieval, the new address and the two decryptions -/

/-- C16. `DecryptCrypt` and `DecryptChallenge` are the same function: on every
ciphertext and private key they return the same plaintext and the same
error. -/
theorem DecryptCrypt_same_function (env : Env) :
    DecryptCrypt env = DecryptChallenge env ∧
      ∀ ciphertext privatekey : String,
        (DecryptCrypt env ciphertext privatekey).1 =
            (DecryptChallenge env ciphertext privatekey).1 ∧
          (DecryptCrypt env ciphertext privatekey).2 =
            (DecryptChallenge env ciphertext privatekey).2 :=
  ⟨rfl, fun _ _ => ⟨rfl, rfl⟩⟩

/-- `RandStringRunes` under the contract of `rand.Intn`: it does not panic, it
draws `n` times, and the string is `n` characters of `letterRunes`. -/
theorem RandStringRunes_spec (env : Env) (hrand : env.IntnInRange) (n : Nat) (w : World) :
    ∃ s : String, RandStringRunes env n w = (some s, { w with rngPos := w.rngPos + n }) ∧
      s.data.length = n ∧ ∀ c ∈ s.data, c ∈ letterRunes := by
  induction n generalizing w with
  | zero => exact ⟨"", rfl, rfl, by simp⟩
  | succ n ih =>
    have hlt : env.intn w.rngPos letterRunes.length < letterRunes.length :=
      hrand _ _ (by decide)
    obtain ⟨s, hs, hlen, hmem⟩ := ih { w with rngPos := w.rngPos + 1 }
    refine ⟨String.mk (letterRunes.get ⟨_, hlt⟩ :: s.data), ?_, by simp [hlen], ?_⟩
    · simp only [RandStringRunes, List.get?_eq_get hlt, hs]
      simp [Nat.add_assoc, Nat.add_comm 1 n]
    · intro c hc
      simp only [List.mem_cons] at hc
      rcases hc with rfl | hc
      · exact List.get_mem _ _ _
      · exact hmem c hc

/-- C17. Under the contract of `rand.Intn` (a result below a positive bound),
for every `n` and every outcome of the random source `RandStringRunes(n)`
returns, without an index out of range, a string of exactly `n` characters,
each one of the 52 letters of `letterRunes`, which are the ASCII letters `a`
to `z` and `A` to `Z`; and when `register` generates the e-mail of the
identity, the e-mail handed to `openpgp.NewEntity` is 24 such letters followed
by `@clients.ripacrypt.download`. -/
theorem RandStringRunes_letters (env : Env) (hrand : env.IntnInRange) (n : Nat) (w : World)
    (f : RegisterFlags) :
    (∃ s : String, (RandStringRunes env n w).1 = some s ∧ s.data.length = n ∧
      ∀ c ∈ s.data, c ∈ letterRunes) ∧
    letterRunes.length = 52 ∧
    (∀ c ∈ letterRunes, ('a' ≤ c ∧ c ≤ 'z') ∨ ('A' ≤ c ∧ c ≤ 'Z')) ∧
    (f.publickey = "" → f.email = "" →
      ∃ s : String, s.data.length = 24 ∧ (∀ c ∈ s.data, c ∈ letterRunes) ∧
        (registerKeys env f w).2.generated =
          w.generated ++ [(f.name, f.comment, s ++ "@clients.ripacrypt.download")]) := by
  refine ⟨?_, by decide, by decide, ?_⟩
  · obtain ⟨s, hs, hlen, hmem⟩ := RandStringRunes_spec env hrand n w
    exact ⟨s, by rw [hs], hlen, hmem⟩
  · intro hpk hemail
    obtain ⟨s, hs, hlen, hmem⟩ := RandStringRunes_spec env hrand 24 w
    refine ⟨s, hlen, hmem, ?_⟩
    simp only [registerKeys, hpk, hemail, hs, if_true]
    repeat' split
    all_goals rfl

/-- The random source of the stand-in meets the contract of `rand.Intn`. -/
theorem demoEnv_intnInRange : demoEnv.IntnInRange :=
  fun i _ hn => Nat.mod_lt (7 * i + 3) hn

/-- C17, witness: thirty letters drawn in the stand-in, and the e-mail it
generates for `register`. -/
theorem RandStringRunes_letters_witness :
    demoEnv.IntnInRange ∧
      (RandStringRunes demoEnv 30 {}).1 = some "dkryFMTahovCJQXelszGNUbipwDKRY" ∧
      (registerKeys demoEnv {} {}).2.generated =
        [("Anonymous", "", "dkryFMTahovCJQXelszGNUbi@clients.ripacrypt.download")] ∧
      ∃ s : String, (RandStringRunes demoEnv 30 {}).1 = some s ∧ s.data.length = 30 ∧
        ∀ c ∈ s.data, c ∈ letterRunes :=
  ⟨demoEnv_intnInRange, by decide, by decide,
    (RandStringRunes_letters demoEnv demoEnv_intnInRange 30 {} {}).1⟩

/-- C15. When `GetBTC` submits its request, it is a POST to the base URL followed
by `newbtc/`, the base being `RIPACRYPTURL` when `conf.UseTor` is false and
`HSURL` when it is true; the body is the marshalled `ClientBTCRequest`, a
struct of exactly `user_id`, `challenge` and `challenge_id`; and when the
answer parses, the response returned, `btc_addr` included, is the parsed
one. -/
theorem GetBTC_request (env : Env) (conf : CoreConf) (w : World) (req : Request)
    (h : (GetBTC env conf w).2.sent = (challengeOf env conf w).2.sent ++ [req]) :
    req.method = "POST" ∧
    req.url = (if conf.UseTor = true then env.HSURL else RIPACRYPTURL) ++ "newbtc/" ∧
    (conf.UseTor = false → req.url = RIPACRYPTURL ++ "newbtc/") ∧
    (conf.UseTor = true → req.url = env.HSURL ++ "newbtc/") ∧
    (∃ buf, env.marshalBTCRequest
        { UserID := conf.UserID, Challenge := (decryptedOf env conf w).1,
          ChallengeID := (challengeOf env conf w).1.1.ChallengeID } = .ok buf ∧
      req.body = some buf) ∧
    (∀ body r, env.clientDo (challengeOf env conf w).2.sent req = .ok body →
      env.unmarshalRegisterResponse body = .ok r →
      (GetBTC env conf w).1 = (r, none) ∧ (GetBTC env conf w).1.1.BTCAddr = r.BTCAddr) := by
  obtain ⟨plain, buf, hp, hm, hreq, hres⟩ := GetBTC_submitted env conf w req h
  refine ⟨by rw [hreq], by rw [hreq], ?_, ?_, ?_, ?_⟩
  · intro ht
    rw [hreq]
    simp [ht]
  · intro ht
    rw [hreq]
    simp [ht]
  · simp only [challengeOf, decryptedOf, hp]
    exact ⟨buf, hm, by rw [hreq]⟩
  · intro body r hbody hparse
    simp only [challengeOf] at hbody
    rw [hres, hbody]
    simp [answerOf, hparse]

/-- C15, witness: the new-address request of user 7 in the stand-in. -/
theorem GetBTC_request_witness :
    (GetBTC demoEnv demoConf {}).2.sent =
        (challengeOf demoEnv demoConf {}).2.sent ++
          [⟨"POST", "https://ripacrypt.download/1/newbtc/",
            some (jsonObject "\"user_id\":7,\"challenge\":\"nonce-42\",\"challenge_id\":42"),
            stdHeaders, false⟩] ∧
      (GetBTC demoEnv demoConf {}).1.1.BTCAddr = "1BoatSLRHtKNngkdXEeobR76b53LETtpyT" ∧
      (⟨"POST", "https://ripacrypt.download/1/newbtc/",
          some (jsonObject "\"user_id\":7,\"challenge\":\"nonce-42\",\"challenge_id\":42"),
          stdHeaders, false⟩ : Request).url = RIPACRYPTURL ++ "newbtc/" :=
  ⟨by decide, by decide,
    (GetBTC_request demoEnv demoConf {}
      ⟨"POST", "https://ripacrypt.download/1/newbtc/",
        some (jsonObject "\"user_id\":7,\"challenge\":\"nonce-42\",\"challenge_id\":42"),
        stdHeaders, false⟩ (by decide)).2.2.1 (by decide)⟩

/-- Through Tor, in the stand-in with the proxy running, the challenge request
still goes to `RIPACRYPTURL` and the new-address request goes to `HSURL`. -/
theorem GetBTC_tor_example :
    (GetBTC torEnv { demoConf with UseTor := true } {}).2.sent.map (fun r => (r.url, r.viaTor)) =
      [("https://ripacrypt.download/1/challenge/", true),
        ("http://ripacrypt.onion/1/newbtc/", true)] := by
  decide

/-- C14 as stated fails: for the crypt id `%zz`, `http.NewRequest` rejects the
URL, and `GetCrypt` returns that error without any request. -/
theorem GetCrypt_no_request :
    strictEnv.newRequest "GET" (RIPACRYPTURL ++ "crypt/" ++ "%zz" ++ "/") =
        some "parse: invalid URL escape" ∧
      GetCrypt strictEnv demoConf "%zz" {} =
        (({}, some (.request "parse: invalid URL escape")), {}) ∧
      ¬ (GetCrypt strictEnv demoConf "%zz" {}).2.sent.length = 1 := by
  decide

/-- C14, amended. `GetCrypt` performs no challenge step: its result depends
neither on `conf.UserID`, `conf.PrivateKey` or `conf.Fingerprint`, nor on
anything `GetChallenge` and `DecryptChallenge` call (the marshalling of a
challenge request, the parsing of its response, base64 and the OpenPGP
reading functions).  When `http.NewRequest` rejects the URL it returns that
error and makes no request; otherwise it makes exactly one request, the GET of
`RIPACRYPTURL + "crypt/" + cryptID + "/"` without a body, and returns what the
shared tail makes of the answer, which is the parsed crypt envelope when the
body parses. -/
theorem GetCrypt_plain (env : Env) (conf : CoreConf) (cryptID : String) (w : World) :
    (∀ e, env.newRequest "GET" (RIPACRYPTURL ++ "crypt/" ++ cryptID ++ "/") = some e →
      GetCrypt env conf cryptID w = (({}, some (.request e)), w)) ∧
    (env.newRequest "GET" (RIPACRYPTURL ++ "crypt/" ++ cryptID ++ "/") = none →
      (GetCrypt env conf cryptID w).2.sent = w.sent ++
          [⟨"GET", RIPACRYPTURL ++ "crypt/" ++ cryptID ++ "/", none, stdHeaders, conf.UseTor⟩] ∧
        ∀ body r,
          env.clientDo w.sent
              ⟨"GET", RIPACRYPTURL ++ "crypt/" ++ cryptID ++ "/", none, stdHeaders,
                conf.UseTor⟩ = .ok body →
          env.unmarshalCryptResponse body = .ok r →
          (GetCrypt env conf cryptID w).1 = (r, none)) ∧
    (∀ (userID : Nat) (privateKey fingerprint : String),
      GetCrypt env { conf with UserID := userID, PrivateKey := privateKey,
                               Fingerprint := fingerprint } cryptID w =
        GetCrypt env conf cryptID w) ∧
    (∀ (marshal1 : ClientChallengeRequest → Except String String)
        (unmarshal1 : String → Except String ChallengeAPIResponse)
        (ring1 : String → List env.Entity × Option String)
        (decode1 : String → String × Option String)
        (message1 : String → List env.Entity → Except String env.Body)
        (readAll1 : env.Body → String × Option String),
      GetCrypt { env with marshalChallengeRequest := marshal1,
                          unmarshalChallengeResponse := unmarshal1,
                          readArmoredKeyRing := ring1, decodeString := decode1,
                          readMessage := message1, readAll := readAll1 } conf cryptID w =
        GetCrypt env conf cryptID w) := by
  refine ⟨?_, ?_, ?_, ?_⟩
  · intro e he
    simp [GetCrypt, he]
  · intro hn
    refine ⟨by simp [GetCrypt, hn, doRequest, World.send], ?_⟩
    intro body r hbody hparse
    simp [GetCrypt, hn, doRequest, answerOf, hbody, hparse]
  · intro userID privateKey fingerprint
    rfl
  · intro marshal1 unmarshal1 ring1 decode1 message1 readAll1
    rfl

/-- C14, witness: the retrieval of the crypt `c1` in the stand-in, one GET
without a body, by an account that holds no key. -/
theorem GetCrypt_plain_witness :
    demoEnv.newRequest "GET" (RIPACRYPTURL ++ "crypt/" ++ "c1" ++ "/") = none ∧
      (GetCrypt demoEnv {} "c1" {}).2.sent =
        [⟨"GET", "https://ripacrypt.download/1/crypt/c1/", none, stdHeaders, false⟩] ∧
      (GetCrypt demoEnv {} "c1" {}).1.1.CryptPayload.CryptID = "c1" ∧
      (GetCrypt demoEnv {} "c1" {}).2.sent = ({} : World).sent ++
        [⟨"GET", RIPACRYPTURL ++ "crypt/" ++ "c1" ++ "/", none, stdHeaders, ({} : CoreConf).UseTor⟩] :=
  ⟨by decide, by decide, by decide, ((GetCrypt_plain demoEnv {} "c1" {}).2.1 (by decide)).1⟩

/-! ### The subcommands and the user id -/

/-- The `new` subcommand does refuse a config without a user id: it returns
with the config and the effects unchanged. -/
theorem mainNew_guard (env : Env) (f : NewFlags) (conf : CoreConf) (w : World)
    (hid : conf.UserID = 0) : mainNew env f conf w = (.returned, conf, w) := by
  simp only [mainNew, hid, if_true]
  split <;> rfl

/-- C11, the code at a failing input.  Without a config file the loaded config
has the user id 0.  The `new` subcommand refuses it, but `checkin` and `newbtc`
have no such test: each of them requests a challenge for the user id 0. -/
theorem checkin_newbtc_without_guard :
    readConfig freshEnv = some {} ∧ ({} : CoreConf).UserID = 0 ∧
      (main { freshEnv with stdinIsPiped := true, stdin := "secret" } (.new {}) {}).2.2.sent = [] ∧
      (main freshEnv (.checkin { crypt := "c1" }) {}).2.2.sent =
        [⟨"POST", "https://ripacrypt.download/1/challenge/",
          some (jsonObject "\"user_id\":0,\"fingerprint\":\"\""), stdHeaders, false⟩] ∧
      (main freshEnv (.newbtc {}) {}).2.2.sent =
        [⟨"POST", "https://ripacrypt.download/1/challenge/",
          some (jsonObject "\"user_id\":0,\"fingerprint\":\"\""), stdHeaders, false⟩] := by
  decide

/-! ### Registration -/

/-- A supplied public key that `VerifyGPGPublicKey` cannot parse ends `register`
with the config and the effects unchanged: nothing is sent, nothing written. -/
theorem register_supplied_key_rejected (env : Env) (f : RegisterFlags) (conf : CoreConf)
    (w : World) (e : String) (hpk : f.publickey ≠ "")
    (herr : (env.readArmoredKeyRing (env.readFile f.publickey).1).2 = some e) :
    mainRegister env f conf w = (.returned, conf, w) := by
  unfold mainRegister
  split
  · rfl
  · rcases hr : env.readArmoredKeyRing (env.readFile f.publickey).1 with ⟨ring, rerr⟩
    rw [hr] at herr
    simp only at herr
    subst herr
    simp [registerKeys, hpk, VerifyGPGPublicKey, hr]

/-- When `openpgp.NewEntity` fails for a given e-mail, `register` goes on to use
the nil entity: the run ends in a panic.  Nothing was sent or written. -/
theorem register_keygen_error (env : Env) (f : RegisterFlags) (conf : CoreConf) (w : World)
    (e : String) (hid : conf.UserID = 0) (hpk : f.publickey = "") (hemail : f.email ≠ "")
    (herr : env.newEntity f.name f.comment f.email = .error e) :
    mainRegister env f conf w =
      (.panicked, conf, { w with generated := w.generated ++ [(f.name, f.comment, f.email)] }) := by
  simp [mainRegister, hid, registerKeys, hpk, hemail, herr]

/-- C13, the code at a failing input: `register -name "Bob (admin)"`.  The name
holds a character a user id cannot hold, `openpgp.NewEntity` returns an error,
and the run ends in a panic instead of returning. -/
theorem register_keygen_panics :
    strictEnv.newEntity "Bob (admin)" "" "dkryFMTahovCJQXelszGNUbi@clients.ripacrypt.download" =
        .error "openpgp: invalid argument: user id field contained invalid characters" ∧
      (main strictEnv (.register { name := "Bob (admin)" }) {}).1 = .panicked ∧
      (main strictEnv (.register { name := "Bob (admin)" }) {}).2.2.sent = [] ∧
      (main strictEnv (.register { name := "Bob (admin)" }) {}).2.2.writes = [] :=
  ⟨rfl, by decide, by decide, by decide⟩

/-- `RandStringRunes` only advances the random source. -/
theorem RandStringRunes_world (env : Env) (n : Nat) (w : World) :
    ∃ k, (RandStringRunes env n w).2 = { w with rngPos := k } := by
  induction n generalizing w with
  | zero => exact ⟨w.rngPos, rfl⟩
  | succ n ih =>
    simp only [RandStringRunes]
    split
    · exact ⟨_, rfl⟩
    · obtain ⟨k, hk⟩ := ih { w with rngPos := w.rngPos + 1 }
      split
      · rename_i heq
        rw [heq] at hk
        exact ⟨k, hk⟩
      · rename_i heq
        rw [heq] at hk
        exact ⟨k, hk⟩

/-- `RIPACryptRegister` sends at most its request: it writes no file and makes
no directory. -/
theorem RIPACryptRegister_world (env : Env) (pk : String) (tor : Bool) (w : World) :
    (RIPACryptRegister env pk tor w).2.writes = w.writes ∧
      (RIPACryptRegister env pk tor w).2.mkdirs = w.mkdirs := by
  simp only [RIPACryptRegister, doRequest]
  repeat' split
  all_goals exact ⟨rfl, rfl⟩

/-- The key stage of `register` sends nothing and writes nothing. -/
theorem registerKeys_world (env : Env) (f : RegisterFlags) (w : World) :
    (registerKeys env f w).2.writes = w.writes ∧ (registerKeys env f w).2.sent = w.sent ∧
      (registerKeys env f w).2.mkdirs = w.mkdirs := by
  obtain ⟨k, hk⟩ := RandStringRunes_world env 24 w
  rcases hr : RandStringRunes env 24 w with ⟨s, w1⟩
  rw [hr] at hk
  simp only at hk
  subst hk
  by_cases hpk : f.publickey = ""
  · by_cases hem : f.email = ""
    · simp only [registerKeys, hpk, hem, if_true, hr]
      cases s with
      | none => exact ⟨rfl, rfl, rfl⟩
      | some r =>
        simp only
        repeat' split
        all_goals exact ⟨rfl, rfl, rfl⟩
    · simp only [registerKeys, hpk, hem, if_true, if_false]
      repeat' split
      all_goals exact ⟨rfl, rfl, rfl⟩
  · simp only [registerKeys, hpk, if_false]
    repeat' split
    all_goals exact ⟨rfl, rfl, rfl⟩

/-- When the key stage of `register` succeeds without a supplied key, the keys
are the two serialisations of the entity that `openpgp.NewEntity` returned and
the loop signed, and the fingerprint is what `VerifyGPGPublicKey` returns for
the public one. -/
theorem registerKeys_generated (env : Env) (f : RegisterFlags) (w : World)
    (pub priv fp : String) (hgen : f.publickey = "")
    (h : (registerKeys env f w).1 = .ok (pub, priv, fp)) :
    ∃ email e e1,
      env.newEntity f.name f.comment email = .ok e ∧
      signIdentities env (env.identities e) e = .ok e1 ∧
      priv = (env.serializePrivate e1).1 ∧
      pub = env.serialize (env.serializePrivate e1).2 ∧
      VerifyGPGPublicKey env pub = some (fp, none) := by
  by_cases hem : f.email = ""
  · rcases hr : RandStringRunes env 24 w with ⟨s, w1⟩
    simp only [registerKeys, hgen, hem, if_true, hr] at h
    cases s with
    | none => simp at h
    | some r =>
      simp only at h
      cases he : env.newEntity f.name f.comment (r ++ "@clients.ripacrypt.download") with
      | error x => simp [he] at h
      | ok e =>
        simp only [he] at h
        cases he1 : signIdentities env (env.identities e) e with
        | error x => simp [he1] at h
        | ok e1 =>
          simp only [he1] at h
          split at h
          · simp at h
          · cases hv : VerifyGPGPublicKey env (env.serialize (env.serializePrivate e1).2) with
            | none => simp [hv] at h
            | some res =>
              rcases res with ⟨fingerprint, verr⟩
              cases verr with
              | some x => simp [hv] at h
              | none =>
                simp only [hv, Except.ok.injEq, Prod.mk.injEq] at h
                obtain ⟨h1, h2, h3⟩ := h
                subst h1 h2 h3
                exact ⟨(r ++ "@clients.ripacrypt.download"), e, e1, he, he1, rfl, rfl, hv⟩
  · simp only [registerKeys, hgen, hem, if_true, if_false] at h
    cases he : env.newEntity f.name f.comment f.email with
    | error x => simp [he] at h
    | ok e =>
      simp only [he] at h
      cases he1 : signIdentities env (env.identities e) e with
      | error x => simp [he1] at h
      | ok e1 =>
        simp only [he1] at h
        split at h
        · simp at h
        · cases hv : VerifyGPGPublicKey env (env.serialize (env.serializePrivate e1).2) with
          | none => simp [hv] at h
          | some res =>
            rcases res with ⟨fingerprint, verr⟩
            cases verr with
            | some x => simp [hv] at h
            | none =>
              simp only [hv, Except.ok.injEq, Prod.mk.injEq] at h
              obtain ⟨h1, h2, h3⟩ := h
              subst h1 h2 h3
              exact ⟨f.email, e, e1, he, he1, rfl, rfl, hv⟩

/-- Under the contract of `KeyIdString`, a fingerprint that `VerifyGPGPublicKey`
returns without an error is not empty. -/
theorem VerifyGPGPublicKey_nonempty (env : Env) (hkey : env.KeyIdNonEmpty)
    (pub fp : String) (h : VerifyGPGPublicKey env pub = some (fp, none)) : fp ≠ "" := by
  unfold VerifyGPGPublicKey at h
  split at h
  · simp at h
  · split at h
    · simp at h
    · simp only [Option.some.injEq, Prod.mk.injEq, and_true] at h
      rw [← h]
      exact hkey _

/-- C12 as stated fails: a server that refuses the registration answers with a
well-formed body without a user id; `register` still writes the record, with
the user id 0. -/
theorem register_writes_zero_user_id :
    (main refusingEnv (.register {}) {}).2.1.UserID = 0 ∧
      (main refusingEnv (.register {}) {}).2.2.writes =
        [("/home/user/.ripacrypt/rc.conf",
          jsonObject ("\"usetor\":false,\"userid\":0,\"btcaddr\":\"\",\"public_key\":\"PUB:K7\"," ++
            "\"private_key\":\"SEC:K7\",\"fingerprint\":\"K7\""))] := by
  decide

/-- C12, amended. Registering with no supplied public key: whenever `register`
writes the account record back, the record is the marshalled final config, and
that config holds the public and the private serialisation of the entity that
`openpgp.NewEntity` generated and the loop signed, a fingerprint equal to
`VerifyGPGPublicKey` of that public key (not empty, under the contract of
`KeyIdString`), and the BTC address and the user id of the response that
`RIPACryptRegister` returned with a nil error; the user id is not tested to be
non-zero.  When `RIPACryptRegister` returns an error no file is written. -/
theorem register_writes_record (env : Env) (f : RegisterFlags) (conf : CoreConf) (w : World)
    (hkey : env.KeyIdNonEmpty) (hgen : f.publickey = "") :
    (∀ path buf, (mainRegister env f conf w).2.2.writes = w.writes ++ [(path, buf)] →
      ∃ email e e1 fp resp,
        env.newEntity f.name f.comment email = .ok e ∧
        signIdentities env (env.identities e) e = .ok e1 ∧
        VerifyGPGPublicKey env (env.serialize (env.serializePrivate e1).2) = some (fp, none) ∧
        fp ≠ "" ∧
        (RIPACryptRegister env (env.serialize (env.serializePrivate e1).2)
          (f.usetor || conf.UseTor) (registerKeys env f w).2).1 = (resp, none) ∧
        path = env.home ++ "/.ripacrypt/rc.conf" ∧
        env.marshalConf (mainRegister env f conf w).2.1 = .ok buf ∧
        (mainRegister env f conf w).2.1 =
          { UseTor := f.usetor || conf.UseTor, UserID := resp.UserID, BTCAddr := resp.BTCAddr,
            PublicKey := env.serialize (env.serializePrivate e1).2,
            PrivateKey := (env.serializePrivate e1).1, Fingerprint := fp }) ∧
    (∀ pub priv fp, (registerKeys env f w).1 = .ok (pub, priv, fp) →
      (RIPACryptRegister env pub (f.usetor || conf.UseTor) (registerKeys env f w).2).1.2 ≠ none →
      (mainRegister env f conf w).2.2.writes = w.writes) := by
  have htor : (if f.usetor = true ∨ conf.UseTor = true then { conf with UseTor := true }
      else conf).UseTor = (f.usetor || conf.UseTor) := by
    cases f.usetor <;> cases hc : conf.UseTor <;> simp [hc]
  obtain ⟨hkw, -, -⟩ := registerKeys_world env f w
  constructor
  · intro path buf hw
    unfold mainRegister at hw ⊢
    by_cases hid : conf.UserID ≠ 0
    · simp [hid] at hw
    · simp only [hid, if_false] at hw ⊢
      rcases hk : registerKeys env f w with ⟨res, w1⟩
      rw [hk] at hkw
      simp only at hkw
      simp only [hk] at hw ⊢
      cases res with
      | error x => simp [hkw] at hw
      | ok keys =>
        rcases keys with ⟨pub, priv, fp⟩
        obtain ⟨email, e, e1, he, he1, hpriv, hpub, hv⟩ :=
          registerKeys_generated env f w pub priv fp hgen (by rw [hk])
        subst hpriv hpub
        simp only [htor] at hw ⊢
        obtain ⟨hrw, -⟩ := RIPACryptRegister_world env
          (env.serialize (env.serializePrivate e1).2) (f.usetor || conf.UseTor) w1
        rcases hr : RIPACryptRegister env (env.serialize (env.serializePrivate e1).2)
          (f.usetor || conf.UseTor) w1 with ⟨⟨resp, rerr⟩, w2⟩
        rw [hr] at hrw
        simp only at hrw
        simp only [hr] at hw ⊢
        cases rerr with
        | some x => simp [hrw, hkw] at hw
        | none =>
          simp only at hw ⊢
          cases hm : env.marshalConf
            { UseTor := f.usetor || conf.UseTor, UserID := resp.UserID, BTCAddr := resp.BTCAddr,
              PublicKey := env.serialize (env.serializePrivate e1).2,
              PrivateKey := (env.serializePrivate e1).1, Fingerprint := fp } with
          | error x => simp [hm, hrw, hkw] at hw
          | ok buf1 =>
            simp only [hm] at hw ⊢
            have hfin : path = env.home ++ "/.ripacrypt/rc.conf" ∧ buf1 = buf := by
              revert hw
              repeat' split
              all_goals simp [hrw, hkw]
              all_goals intro h1 h2; exact ⟨h1.symm, h2⟩
            obtain ⟨hpath, hbuf⟩ := hfin
            subst hpath hbuf
            refine ⟨email, e, e1, fp, resp, he, he1, hv,
              VerifyGPGPublicKey_nonempty env hkey _ fp hv, by rw [hr], rfl, ?_, ?_⟩
            · repeat' split
              all_goals exact hm
            · repeat' split
              all_goals rfl
  · intro pub priv fp hk hrerr
    unfold mainRegister
    by_cases hid : conf.UserID ≠ 0
    · simp [hid]
    · simp only [hid, if_false]
      rcases hk1 : registerKeys env f w with ⟨res, w1⟩
      rw [hk1] at hk hkw hrerr
      simp only at hk hkw hrerr
      subst hk
      simp only [htor]
      obtain ⟨hrw, -⟩ := RIPACryptRegister_world env pub (f.usetor || conf.UseTor) w1
      rcases hr : RIPACryptRegister env pub (f.usetor || conf.UseTor) w1 with ⟨⟨resp, rerr⟩, w2⟩
      rw [hr] at hrw hrerr
      simp only at hrw hrerr
      cases rerr with
      | none => simp at hrerr
      | some x => simp [hrw, hkw]

/-- The stand-in before registration meets the contract of `KeyIdString`. -/
theorem freshEnv_keyIdNonEmpty : freshEnv.KeyIdNonEmpty := by
  intro e
  show (if DemoEntity.keyId e = "" then "0" else DemoEntity.keyId e) ≠ ""
  split
  · decide
  · assumption

/-- C12, witness: a registration in the stand-in, without a config file and
without a supplied key.  The record written holds the generated pair `K7`, its
fingerprint, and the address and the user id 7 of the response. -/
theorem register_writes_record_witness :
    freshEnv.KeyIdNonEmpty ∧
      (mainRegister freshEnv {} {} {}).2.2.writes =
        ({} : World).writes ++ [("/home/user/.ripacrypt/rc.conf", demoConfBody)] ∧
      (mainRegister freshEnv {} {} {}).2.1 = demoConf ∧
      ∃ fp, fp ≠ "" ∧ (mainRegister freshEnv {} {} {}).2.1.Fingerprint = fp := by
  refine ⟨freshEnv_keyIdNonEmpty, by decide, by decide, ?_⟩
  obtain ⟨_, _, _, fp, _, _, _, _, hne, _, _, _, hrec⟩ :=
    (register_writes_record freshEnv {} {} {} freshEnv_keyIdNonEmpty rfl).1
      "/home/user/.ripacrypt/rc.conf" demoConfBody (by decide)
  exact ⟨fp, hne, by rw [hrec]⟩

end RIPACrypt
